import Mathlib

/-
Verification development for the JSON-to-relational loading core of an MLB
data pipeline (module `src/database/json_to_sql_loader.py`, schema from
`src/database/connection.py`).

The loader manipulates Python dicts obtained from JSON files and issues SQL
statements against five tables (teams, players, games, boxscore,
raw_json_data).  The embedding below models:

  * the five tables as lists of row records, with SQL's NULL-valued columns
    as `Option` fields and SQL equality on nullable keys (`NULL = x` is not
    satisfied) as `sqlEqI`;
  * the JSON payloads as structures whose `Option` fields model
    `dict.get(key)` (`none` models an absent key or a JSON null, which the
    loader treats alike through `.get` defaults and truthiness checks);
  * each SQL statement issued by the loader as a function `DB → DB`
    translated from the statement's text;
  * each load path as the list of statements it issues (`LoadStep`), run
    either inside one explicit transaction (`runTx`, the
    `connection.begin()` block of `_load_combined_data`) or statement by
    statement (`runAuto`, the paths that issue bare `execute_query` calls,
    which the connection module documents as autocommitting);
  * dates as their `"YYYY-MM-DD"` strings, with `datetime.strptime(s,
    "%Y-%m-%d")` modelled by the calendar validity check `validDate` at the
    canonical field widths, and `datetime.fromisoformat(..).date()` by the
    validated 10-character date prefix;
  * `datetime.now().date()` as an explicit `today` argument.

The audit columns `json_data` and `extraction_timestamp` of raw_json_data
and the `created_at` columns are not modelled; no claim reads them.
-/

namespace MLB

/-! ## Relational rows and database state -/

/-- A row of the `teams` table. -/
structure TeamRow where
  team_id : Option Int
  team_name : Option String
  abbreviation : Option String
  league : Option String
  division : Option String
deriving Repr, DecidableEq

/-- A row of the `players` table. -/
structure PlayerRow where
  player_id : Option Int
  player_name : Option String
  team_id : Option Int
  position : Option String
deriving Repr, DecidableEq

/-- A row of the `games` table. -/
structure GameRow where
  game_id : Option Int
  game_date : Option String
  home_team_id : Option Int
  away_team_id : Option Int
  home_score : Int
  away_score : Int
  inning : Option Int
  inning_state : Option String
  game_status : String
  game_type : Option String
  series_description : Option String
  official_date : Option String
deriving Repr, DecidableEq

/-- A row of the `boxscore` table (the synthetic identity column is not
modelled; the application-level key is (game_id, player_id)). -/
structure BoxRow where
  game_id : Option Int
  player_id : Option Int
  team_id : Option Int
  at_bats : Int
  runs : Int
  hits : Int
  doubles : Int
  triples : Int
  home_runs : Int
  rbi : Int
  walks : Int
  strikeouts : Int
deriving Repr, DecidableEq

/-- A row of the append-only `raw_json_data` audit table. -/
structure RawRow where
  game_id : Option Int
  data_type : String
deriving Repr, DecidableEq

/-- The visible database state: the five tables touched by the loader. -/
structure DB where
  teams : List TeamRow
  players : List PlayerRow
  games : List GameRow
  boxscore : List BoxRow
  raw : List RawRow
deriving Repr, DecidableEq

def DB.empty : DB := ⟨[], [], [], [], []⟩

/-- SQL equality on a nullable integer column: `NULL = x` is never
satisfied, so a row with a NULL key never matches a `WHERE` clause that
compares that key. -/
def sqlEqI : Option Int → Option Int → Bool
  | some a, some b => a == b
  | _, _ => false

/-! ## Python-side value helpers -/

/-- Python truthiness of a nullable integer: `None` and `0` are falsy. -/
def truthyInt : Option Int → Bool
  | some n => n != 0
  | none => false

/-- Python truthiness of a nullable string: `None` and `""` are falsy. -/
def truthyStr : Option String → Bool
  | some s => s != ""
  | none => false

/-- Python `a or b` on nullable strings: `a` when truthy, else `b`. -/
def orStr (a b : Option String) : Option String :=
  if truthyStr a then a else b

/-- Python `s.startswith(pre)` (character-level prefix test). -/
def strStartsWith (s pre : String) : Bool :=
  s.toList.take pre.toList.length == pre.toList

/-! ## Dates -/

def leapYear (y : Nat) : Bool :=
  (y % 4 == 0 && y % 100 != 0) || y % 400 == 0

def daysInMonth (y m : Nat) : Nat :=
  if m == 2 then (if leapYear y then 29 else 28)
  else if m == 4 || m == 6 || m == 9 || m == 11 then 30
  else 31

def digitVal (c : Char) : Nat := c.toNat - '0'.toNat

/-- Calendar validity of a `"YYYY-MM-DD"` string, modelling
`datetime.strptime(s, "%Y-%m-%d")` succeeding (numeric fields at their
canonical widths). -/
def validDate (s : String) : Bool :=
  match s.toList with
  | [y1, y2, y3, y4, '-', m1, m2, '-', d1, d2] =>
    [y1, y2, y3, y4, m1, m2, d1, d2].all Char.isDigit &&
    (let y := ((digitVal y1 * 10 + digitVal y2) * 10 + digitVal y3) * 10 + digitVal y4
     let m := digitVal m1 * 10 + digitVal m2
     let d := digitVal d1 * 10 + digitVal d2
     1 ≤ m && m ≤ 12 && 1 ≤ d && d ≤ daysInMonth y m)
  | _ => false

/-- `datetime.fromisoformat(s.replace('Z', '+00:00')).date()`, modelled as
the 10-character date prefix of the timestamp when that prefix is a valid
date, and as a failure otherwise. -/
def parseIsoDate (s : String) : Except Unit String :=
  if validDate (s.take 10) then .ok (s.take 10) else .error ()

/-- The `else` branch of the date resolution in `_insert_game`: the
`gameDate` timestamp embedded in the payload body when truthy (its parse
failure is caught and degrades to today's date), else today's date. -/
def fallbackDate (iso : Option String) (today : String) : String :=
  match iso with
  | some s => if s != "" then ((parseIsoDate s).toOption.getD today) else today
  | none => today

/-- Date resolution in `_insert_game`: a truthy caller-supplied
`game_date` string is parsed with `strptime` (raising on an invalid date),
otherwise `fallbackDate` applies. -/
def parseGameDate (game_date iso : Option String) (today : String) :
    Except Unit String :=
  match game_date with
  | some s =>
    if s != "" then (if validDate s then .ok s else .error ())
    else .ok (fallbackDate iso today)
  | none => .ok (fallbackDate iso today)

/-! ## JSON payload shapes read by the loader -/

/-- A `league`/`division` sub-object of a team descriptor. -/
structure LeagueJson where
  name : Option String
deriving Repr, DecidableEq

/-- A team descriptor as read by `_insert_team`. -/
structure TeamJson where
  id : Option Int
  name : Option String
  abbreviation : Option String
  league : Option LeagueJson
  division : Option LeagueJson
deriving Repr, DecidableEq

def TeamJson.empty : TeamJson := ⟨none, none, none, none, none⟩

/-- The `primaryPosition` sub-object of a person descriptor. -/
structure PositionJson where
  name : Option String
deriving Repr, DecidableEq

/-- A `person` descriptor as read by `_insert_player`. -/
structure PersonJson where
  id : Option Int
  fullName : Option String
  primaryPosition : Option PositionJson
deriving Repr, DecidableEq

/-- A `batting` statistics object.  These are the keys the upstream API
uses; `_insert_boxscore_stats` reads only `atBats`, `runs`, `hits`,
`doubles`, `triples`, `homeRuns`, `rbi`, `walks` and `strikeOuts`, each
with default `0`. -/
structure BattingJson where
  atBats : Option Int
  runs : Option Int
  hits : Option Int
  doubles : Option Int
  triples : Option Int
  homeRuns : Option Int
  rbi : Option Int
  walks : Option Int
  baseOnBalls : Option Int
  strikeOuts : Option Int
  hitByPitch : Option Int
  sacFlies : Option Int
  sacBunts : Option Int
deriving Repr, DecidableEq

def BattingJson.empty : BattingJson :=
  ⟨none, none, none, none, none, none, none, none, none, none, none, none, none⟩

/-- The `stats` object of a player entry. -/
structure StatsJson where
  batting : Option BattingJson
deriving Repr, DecidableEq

/-- A player entry of a boxscore `players` dict. -/
structure PlayerJson where
  person : Option PersonJson
  stats : Option StatsJson
deriving Repr, DecidableEq

/-- One side (`home` or `away`) of a `teams` object.  Game-data payloads
carry `team` and `runs`; boxscore payloads carry `team` and `players`
(a dict whose keys are the `"ID<n>"` strings). -/
structure SideJson where
  team : Option TeamJson
  runs : Option Int
  players : List (String × PlayerJson)
deriving Repr, DecidableEq

def SideJson.empty : SideJson := ⟨none, none, []⟩

/-- A `teams` object with its two sides. -/
structure TeamsJson where
  home : Option SideJson
  away : Option SideJson
deriving Repr, DecidableEq

def TeamsJson.empty : TeamsJson := ⟨none, none⟩

/-- A game-data payload body as read by `_process_game_data` and
`_insert_game`. -/
structure GameDataJson where
  teams : Option TeamsJson
  currentInning : Option Int
  inningState : Option String
  gameDate : Option String
  gameType : Option String
  seriesDescription : Option String
  officialDate : Option String
deriving Repr, DecidableEq

/-- A boxscore payload body as read by `_process_boxscore_data`. -/
structure BoxscoreJson where
  teams : Option TeamsJson
deriving Repr, DecidableEq

/-- The metadata dict `_load_combined_data` builds from the top level of a
combined payload and passes to `_insert_game`. -/
structure MetaJson where
  game_type : Option String
  official_date : Option String
  series_description : Option String
deriving Repr, DecidableEq

def MetaJson.empty : MetaJson := ⟨none, none, none⟩

/-- A combined payload: top-level identifiers and metadata plus the
embedded `game_data` and `boxscore` bodies. -/
structure CombinedJson where
  game_id : Option Int
  game_date : Option String
  game_type : Option String
  official_date : Option String
  series_description : Option String
  game_data : Option GameDataJson
  boxscore : Option BoxscoreJson
deriving Repr, DecidableEq

/-! ## The SQL statements issued by the loader, as state transformers -/

/-- Row built by `_insert_team` from a team descriptor. -/
def teamRowOf (t : TeamJson) : TeamRow :=
  { team_id := t.id
    team_name := t.name
    abbreviation := t.abbreviation
    league := (t.league.getD ⟨none⟩).name
    division := (t.division.getD ⟨none⟩).name }

/-- The `IF NOT EXISTS … INSERT` statement of `_insert_team`: insert only
when no row carries the team_id; an existing row is never modified. -/
def insertTeamQ (p : TeamRow) (db : DB) : DB :=
  if db.teams.any (fun r => sqlEqI r.team_id p.team_id) then db
  else { db with teams := db.teams ++ [p] }

/-- Row built by `_insert_player` from a person descriptor and the
enclosing team's id. -/
def playerRowOf (person : PersonJson) (team_id : Option Int) : PlayerRow :=
  { player_id := person.id
    player_name := person.fullName
    team_id := team_id
    position := (person.primaryPosition.getD ⟨none⟩).name }

/-- The `IF NOT EXISTS … INSERT` statement of `_insert_player`. -/
def insertPlayerQ (p : PlayerRow) (db : DB) : DB :=
  if db.players.any (fun r => sqlEqI r.player_id p.player_id) then db
  else { db with players := db.players ++ [p] }

/-- The `UPDATE games SET …` branch of `_insert_game` (and of
`_insert_game_from_schedule`): it sets game_date, the scores, inning,
inning_state, game_status, game_type, series_description and
official_date, and does NOT set home_team_id or away_team_id. -/
def applyGameUpdate (p r : GameRow) : GameRow :=
  { r with
    game_date := p.game_date
    home_score := p.home_score
    away_score := p.away_score
    inning := p.inning
    inning_state := p.inning_state
    game_status := p.game_status
    game_type := p.game_type
    series_description := p.series_description
    official_date := p.official_date }

/-- Effect on the `games` table of the `IF NOT EXISTS … INSERT … ELSE
UPDATE` statement of `_insert_game`. -/
def upsertGames (p : GameRow) (rows : List GameRow) : List GameRow :=
  if rows.any (fun r => sqlEqI r.game_id p.game_id) then
    rows.map (fun r => if sqlEqI r.game_id p.game_id then applyGameUpdate p r else r)
  else rows ++ [p]

def insertGameQ (p : GameRow) (db : DB) : DB :=
  { db with games := upsertGames p db.games }

/-- The `UPDATE games SET …` branch of the first (shadowed)
`_insert_scheduled_game`: unlike `applyGameUpdate` it also rewrites
home_team_id and away_team_id. -/
def applyGameUpdateFull (p r : GameRow) : GameRow :=
  { applyGameUpdate p r with
    home_team_id := p.home_team_id
    away_team_id := p.away_team_id }

/-- Effect on `games` of the upsert statement of `_insert_scheduled_game`. -/
def upsertGamesFull (p : GameRow) (rows : List GameRow) : List GameRow :=
  if rows.any (fun r => sqlEqI r.game_id p.game_id) then
    rows.map (fun r => if sqlEqI r.game_id p.game_id then applyGameUpdateFull p r else r)
  else rows ++ [p]

def insertGameFullQ (p : GameRow) (db : DB) : DB :=
  { db with games := upsertGamesFull p db.games }

/-- Row built by `_insert_boxscore_stats` from a batting object.  Each
numeric field comes from `batting_stats.get(key, 0)`; note that the walks
column is read from the key `walks` (the key `baseOnBalls` the upstream
API uses is not consulted), and that no column is written for
`hitByPitch`, `sacFlies` or `sacBunts`. -/
def boxRowOf (game_id player_id team_id : Option Int) (b : BattingJson) : BoxRow :=
  { game_id := game_id
    player_id := player_id
    team_id := team_id
    at_bats := b.atBats.getD 0
    runs := b.runs.getD 0
    hits := b.hits.getD 0
    doubles := b.doubles.getD 0
    triples := b.triples.getD 0
    home_runs := b.homeRuns.getD 0
    rbi := b.rbi.getD 0
    walks := b.walks.getD 0
    strikeouts := b.strikeOuts.getD 0 }

/-- Composite-key match used by the `WHERE` clause of
`_insert_boxscore_stats`'s existence check. -/
def keyMatch (game_id player_id : Option Int) (r : BoxRow) : Bool :=
  sqlEqI r.game_id game_id && sqlEqI r.player_id player_id

/-- Effect on `boxscore` of `_insert_boxscore_stats`'s statement: `IF NOT
EXISTS (… WHERE game_id = :game_id AND player_id = :player_id) INSERT …`.
There is no `ELSE` branch: when a row with the composite key exists the
statement does nothing. -/
def upsertBoxRows (game_id player_id team_id : Option Int) (b : BattingJson)
    (rows : List BoxRow) : List BoxRow :=
  if rows.any (keyMatch game_id player_id) then rows
  else rows ++ [boxRowOf game_id player_id team_id b]

/-- `_insert_boxscore_stats(game_id, player_id, team_id, batting_stats)`. -/
def insert_boxscore_stats (game_id player_id team_id : Option Int)
    (b : BattingJson) (db : DB) : DB :=
  { db with boxscore := upsertBoxRows game_id player_id team_id b db.boxscore }

/-- `_save_raw_json`: an unconditional append to `raw_json_data`. -/
def saveRawQ (game_id : Option Int) (data_type : String) (db : DB) : DB :=
  { db with raw := db.raw ++ [⟨game_id, data_type⟩] }

/-! ## Dynamic JSON and game-id recovery

`_extract_game_id_from_data` walks the raw parsed JSON dict, so it is
embedded over a dynamic JSON type rather than over the typed payload
shapes above. -/

/-- Parsed JSON values. -/
inductive Json where
  | null
  | bool (b : Bool)
  | num (n : Int)
  | str (s : String)
  | arr (elems : List Json)
  | obj (fields : List (String × Json))

/-- Dict key lookup (`key in d` / `d[key]`); dict keys are unique, so the
first match is the match. -/
def lookupField : List (String × Json) → String → Option Json
  | [], _ => none
  | (k, v) :: rest, key => if k == key then some v else lookupField rest key

/-- The `for key, value in data.items()` loop of
`_extract_game_id_from_data`: the first value that is a dict containing
the key `gamePk` yields that entry. -/
def firstNestedGamePk : List (String × Json) → Option Json
  | [] => none
  | (_, Json.obj g) :: rest =>
    match lookupField g "gamePk" with
    | some v => some v
    | none => firstNestedGamePk rest
  | _ :: rest => firstNestedGamePk rest

/-- `_extract_game_id_from_data(data)`: on a dict, try the top-level key
`game_id`, then the top-level key `gamePk`, then the first value one level
down that is a dict holding `gamePk`; anything else yields `None`.  The
function receives only the payload — no filename is available to it, and
its callers (`_load_boxscore_data`, `_load_game_data`) pass only the
payload as well. -/
def extract_game_id_from_data : Json → Option Json
  | Json.obj fields =>
    match lookupField fields "game_id" with
    | some v => some v
    | none =>
      match lookupField fields "gamePk" with
      | some v => some v
      | none => firstNestedGamePk fields
  | _ => none

/-- Coercion of a recovered identifier value to the integer key column
(non-integer identifier forms are out of scope and modelled as NULL). -/
def jsonIntOf : Option Json → Option Int
  | some (Json.num n) => some n
  | _ => none

/-! ## Load paths as statement sequences

Each load path issues a fixed sequence of `execute_query` calls
interspersed, possibly, with a Python-level failure (a `strptime` call on
an invalid date).  `LoadStep` records that sequence; `runTx` executes it
inside one `connection.begin()` transaction (all-or-nothing), `runAuto`
executes it with each statement committing as issued, which is how the
connection module behaves for bare `execute_query` calls ("autocommit by
default" — its own description; "let the caller handle transaction
management"). -/

inductive LoadStep where
  | sql (f : DB → DB)
  | raiseErr

/-- Pure effect of a step (used to describe fully applied runs). -/
def LoadStep.app : LoadStep → DB → DB
  | .sql f, db => f db
  | .raiseErr, db => db

/-- Apply every statement of a sequence in order. -/
def applySteps : List LoadStep → DB → DB
  | [], db => db
  | s :: rest, db => applySteps rest (s.app db)

/-- Whether a sequence is free of Python-level failures. -/
def noRaise : List LoadStep → Bool
  | [] => true
  | .sql _ :: rest => noRaise rest
  | .raiseErr :: _ => false

/-- Outcome of a transactional run. -/
inductive TxOut where
  | ok (db : DB)
  | failSql
  | failPy
deriving Repr, DecidableEq

/-- Run a statement sequence inside one explicit transaction.  `fail k`
says whether the k-th statement issued raises a database error.  On any
failure the transaction context rolls everything back, so no intermediate
state survives. -/
def runTx : List LoadStep → (Nat → Bool) → Nat → DB → TxOut × Nat
  | [], _, k, db => (.ok db, k)
  | .sql f :: rest, fail, k, db =>
    if fail k then (.failSql, k + 1) else runTx rest fail (k + 1) (f db)
  | .raiseErr :: _, _, k, _ => (.failPy, k)

/-- Run a statement sequence with no enclosing transaction: every
statement that succeeds is committed immediately and survives a later
failure.  Returns whether the whole sequence completed, the committed
state, and the statement counter. -/
def runAuto : List LoadStep → (Nat → Bool) → Nat → DB → Bool × DB × Nat
  | [], _, k, db => (true, db, k)
  | .sql f :: rest, fail, k, db =>
    if fail k then (false, db, k + 1) else runAuto rest fail (k + 1) (f db)
  | .raiseErr :: _, _, k, db => (false, db, k)

/-- The failure oracle of a run in which no database statement fails. -/
def noFail : Nat → Bool := fun _ => false

/-! ## The loader's processing functions as step emitters -/

/-- `if team_descriptor: self._insert_team(team_descriptor)` — an absent
or empty (falsy) descriptor issues nothing. -/
def teamSteps (t : Option TeamJson) : List LoadStep :=
  match t with
  | some tj => [.sql (insertTeamQ (teamRowOf tj))]
  | none => []

/-- The body of `_process_boxscore_data`'s player loop for one
`(player_key, player_data)` entry: keys not starting with `"ID"` are
skipped; a truthy `person` dict is upserted into players; a truthy
`batting` dict is written to boxscore with `person.get('id')` and the
enclosing `team_info.get('id')`. -/
def playerSteps (game_id team_id : Option Int) (entry : String × PlayerJson) :
    List LoadStep :=
  if strStartsWith entry.1 "ID" then
    (match entry.2.person with
     | some pj => [.sql (insertPlayerQ (playerRowOf pj team_id))]
     | none => []) ++
    (match (entry.2.stats.getD ⟨none⟩).batting with
     | some b =>
       [.sql (insert_boxscore_stats game_id (entry.2.person.bind (·.id)) team_id b)]
     | none => [])
  else []

/-- One side (`home` or `away`) of `_process_boxscore_data`: the side's
team upsert followed by its player loop. -/
def sideSteps (game_id : Option Int) (side : Option SideJson) : List LoadStep :=
  let s := side.getD .empty
  teamSteps s.team ++ s.players.flatMap (playerSteps game_id (s.team.bind (·.id)))

/-- `_process_boxscore_data(game_id, boxscore_data)`. -/
def processBoxscoreSteps (game_id : Option Int) (bx : BoxscoreJson) : List LoadStep :=
  sideSteps game_id (bx.teams.getD .empty).home ++
  sideSteps game_id (bx.teams.getD .empty).away

/-- The home-side team dict of a game-data body, as `_process_game_data`
computes it: `game_data.get('teams', {}).get('home', {}).get('team', {})`. -/
def homeTeamOf (gd : GameDataJson) : Option TeamJson :=
  ((gd.teams.getD .empty).home.getD .empty).team

def awayTeamOf (gd : GameDataJson) : Option TeamJson :=
  ((gd.teams.getD .empty).away.getD .empty).team

/-- The parameter row `_insert_game` binds into its upsert statement,
given the already-parsed date.  Scores default to 0, the status is the
truthiness of `currentInning`, and each metadata field is the caller's
metadata `or` the field embedded in the game-data body. -/
def gameRowParams (game_id : Option Int) (gd : GameDataJson)
    (home away : Option TeamJson) (parsed_date : String) (gm : MetaJson) : GameRow :=
  let teams := gd.teams.getD .empty
  { game_id := game_id
    game_date := some parsed_date
    home_team_id := (home.getD .empty).id
    away_team_id := (away.getD .empty).id
    home_score := ((teams.home.getD .empty).runs).getD 0
    away_score := ((teams.away.getD .empty).runs).getD 0
    inning := gd.currentInning
    inning_state := gd.inningState
    game_status := if truthyInt gd.currentInning then "Live" else "Final"
    game_type := orStr gm.game_type gd.gameType
    series_description := orStr gm.series_description gd.seriesDescription
    official_date := orStr gm.official_date gd.officialDate }

/-- `_process_game_data(game_id, game_data, game_date, game_metadata)`:
upsert the two teams, then run `_insert_game`, whose date resolution can
raise on an invalid caller-supplied date string. -/
def processGameDataSteps (game_id : Option Int) (gd : GameDataJson)
    (game_date : Option String) (game_metadata : Option MetaJson)
    (today : String) : List LoadStep :=
  teamSteps (homeTeamOf gd) ++ teamSteps (awayTeamOf gd) ++
  (match parseGameDate game_date gd.gameDate today with
   | .ok d =>
     [.sql (insertGameQ (gameRowParams game_id gd (homeTeamOf gd) (awayTeamOf gd) d
       (game_metadata.getD .empty)))]
   | .error _ => [.raiseErr])

/-- The metadata dict `_load_combined_data` extracts from a combined
payload's top level. -/
def metaOf (data : CombinedJson) : MetaJson :=
  ⟨data.game_type, data.official_date, data.series_description⟩

/-- The games-row parameters a combined load computes from its payload
and the parsed date. -/
def combinedGameRow (data : CombinedJson) (gd : GameDataJson) (d : String) : GameRow :=
  gameRowParams data.game_id gd (homeTeamOf gd) (awayTeamOf gd) d (metaOf data)

/-- The statement sequence of `_load_combined_data`: the raw-JSON audit
insert, then (when present) the game-data processing, then (when present)
the boxscore processing. -/
def combinedSteps (data : CombinedJson) (today : String) : List LoadStep :=
  .sql (saveRawQ data.game_id "combined") ::
  ((match data.game_data with
    | some gd =>
      processGameDataSteps data.game_id gd data.game_date (some (metaOf data)) today
    | none => []) ++
   (match data.boxscore with
    | some bx => processBoxscoreSteps data.game_id bx
    | none => []))

/-- `_load_combined_data(data)`: all statements run inside one
`connection.begin()` transaction; any exception rolls the transaction back
and is caught, and the function returns False.  On success it returns
True. -/
def load_combined_data (data : CombinedJson) (today : String)
    (fail : Nat → Bool) (db : DB) : Bool × DB :=
  match (runTx (combinedSteps data today) fail 0 db).1 with
  | .ok db' => (true, db')
  | _ => (false, db)

/-- The statement sequence of `_load_boxscore_data`: recover the game id
from the payload body, append the raw-JSON audit row, process the
boxscore.  `dataDyn` is the payload as a raw JSON dict (what the id
recovery walks) and `bx` the same payload in the typed shape the boxscore
processing reads. -/
def boxscoreOnlySteps (dataDyn : Json) (bx : BoxscoreJson) : List LoadStep :=
  let game_id := jsonIntOf (extract_game_id_from_data dataDyn)
  .sql (saveRawQ game_id "boxscore") :: processBoxscoreSteps game_id bx

/-- `_load_boxscore_data(data)`: no enclosing transaction — each
statement commits as issued; an exception is caught and False returned,
with the statements already issued still committed. -/
def load_boxscore_data (dataDyn : Json) (bx : BoxscoreJson)
    (fail : Nat → Bool) (db : DB) : Bool × DB :=
  let r := runAuto (boxscoreOnlySteps dataDyn bx) fail 0 db
  (r.1, r.2.1)

/-- The statement sequence of `_load_game_data`: like the boxscore-only
path but processing game data, with no caller-supplied date or metadata. -/
def gameOnlySteps (dataDyn : Json) (gd : GameDataJson) (today : String) :
    List LoadStep :=
  let game_id := jsonIntOf (extract_game_id_from_data dataDyn)
  .sql (saveRawQ game_id "game_data") ::
  processGameDataSteps game_id gd none none today

/-- `_load_game_data(data)`: no enclosing transaction. -/
def load_game_data (dataDyn : Json) (gd : GameDataJson) (today : String)
    (fail : Nat → Bool) (db : DB) : Bool × DB :=
  let r := runAuto (gameOnlySteps dataDyn gd today) fail 0 db
  (r.1, r.2.1)

/-! ## The dispatching entry point -/

/-- The file kinds `load_json_to_database` distinguishes by filename
convention. -/
inductive FileKind where
  | combined
  | boxscoreRaw
  | gameRaw
  | unknown
deriving Repr, DecidableEq

/-- Whether `pat` is a prefix of `l` (character lists). -/
def listHasPre (pat l : List Char) : Bool :=
  l.take pat.length == pat

/-- Whether `pat` occurs as a contiguous run inside `l`. -/
def listContainsSub (pat : List Char) : List Char → Bool
  | [] => listHasPre pat []
  | c :: rest => listHasPre pat (c :: rest) || listContainsSub pat rest

/-- Python `pat in s` on strings: substring containment. -/
def strContains (s pat : String) : Bool :=
  listContainsSub pat.toList s.toList

/-- The dispatch of `load_json_to_database`: `'combined_data' in
str(path)`, then `'boxscore_raw'`, then `'game_raw'`, else unknown. -/
def classifyPath (path : String) : FileKind :=
  if strContains path "combined_data" then .combined
  else if strContains path "boxscore_raw" then .boxscoreRaw
  else if strContains path "game_raw" then .gameRaw
  else .unknown

/-- The views of one parsed JSON document consumed by the three load
paths: the raw dict the id recovery walks, and the shape each processing
path reads from the same document. -/
structure PayloadViews where
  dyn : Json
  combined : CombinedJson
  boxscore : BoxscoreJson
  gamedata : GameDataJson

/-- `load_json_to_database(json_file_path)`: read the JSON (`jsonOk` is
false when `load_from_json` fails or yields falsy data), connect
(`connOk`), classify the path and dispatch.  Unknown kinds return False.
The enclosing try/except converts any escaping exception into False; in
the model the dispatched loads already catch their own failures, so the
function forwards their boolean result. -/
def load_json_to_database (path : String) (p : PayloadViews)
    (jsonOk connOk : Bool) (today : String) (fail : Nat → Bool) (db : DB) :
    Bool × DB :=
  if !jsonOk then (false, db)
  else if !connOk then (false, db)
  else
    match classifyPath path with
    | .combined => load_combined_data p.combined today fail db
    | .boxscoreRaw => load_boxscore_data p.dyn p.boxscore fail db
    | .gameRaw => load_game_data p.dyn p.gamedata today fail db
    | .unknown => (false, db)

/-! ## The two schedule loaders

The class body defines `load_schedule_data` twice; the later definition
shadows the earlier one, so only the later is callable on instances.  Both
are embedded. -/

/-- The `status` object of a schedule game descriptor. -/
structure StatusJson where
  detailedState : Option String
  abstractGameState : Option String
deriving Repr, DecidableEq

/-- The `linescore` object of a schedule game descriptor (its `teams`
sides reuse `SideJson.runs`). -/
structure LinescoreJson where
  teams : Option TeamsJson
  currentInning : Option Int
  inningState : Option String
deriving Repr, DecidableEq

def LinescoreJson.empty : LinescoreJson := ⟨none, none, none⟩

/-- A game descriptor from the schedule API. -/
structure SchedGameJson where
  gamePk : Option Int
  teams : Option TeamsJson
  status : Option StatusJson
  linescore : Option LinescoreJson
  gameDate : Option String
  gameType : Option String
  seriesDescription : Option String
  officialDate : Option String
deriving Repr, DecidableEq

/-- A date entry of a schedule response. -/
structure DateEntryJson where
  date : Option String
  games : List SchedGameJson
deriving Repr, DecidableEq

/-- A schedule API response. -/
structure ScheduleJson where
  dates : List DateEntryJson
deriving Repr, DecidableEq

/-- Date resolution of the first (shadowed) `_insert_scheduled_game`: a
truthy `gameDate` timestamp is parsed with `fromisoformat` (its failure
propagates to the function's catch-all), otherwise `strptime` runs on the
schedule's date string (raising on `None` or an invalid string). -/
def schedParsedDate (gameDate sched_date : Option String) : Except Unit String :=
  match gameDate with
  | some s =>
    if s != "" then parseIsoDate s
    else (match sched_date with
          | some d => if validDate d then .ok d else .error ()
          | none => .error ())
  | none =>
    match sched_date with
    | some d => if validDate d then .ok d else .error ()
    | none => .error ()

/-- `official_date` handling of `_insert_scheduled_game`: a truthy value
is parsed in a `try` whose failure degrades to `None`. -/
def schedOfficialDate (od : Option String) : Option String :=
  match od with
  | some s => if s != "" then (if validDate s then some s else none) else none
  | none => none

/-- The parameter row `_insert_scheduled_game` binds, given the parsed
date.  Scores and inning come from a truthy `linescore` only; the status
is `status.get('detailedState', 'Scheduled')`. -/
def schedGameRowV1 (g : SchedGameJson) (d : String) : GameRow :=
  let teams := g.teams.getD .empty
  let scores :=
    match g.linescore with
    | some ls =>
      let lst := ls.teams.getD .empty
      (((lst.home.getD .empty).runs).getD 0, ((lst.away.getD .empty).runs).getD 0,
       ls.currentInning, ls.inningState)
    | none => (0, 0, none, none)
  { game_id := g.gamePk
    game_date := some d
    home_team_id := ((teams.home.getD .empty).team.getD .empty).id
    away_team_id := ((teams.away.getD .empty).team.getD .empty).id
    home_score := scores.1
    away_score := scores.2.1
    inning := scores.2.2.1
    inning_state := scores.2.2.2
    game_status := (g.status.getD ⟨none, none⟩).detailedState.getD "Scheduled"
    game_type := g.gameType
    series_description := g.seriesDescription
    official_date := schedOfficialDate g.officialDate }

/-- `_insert_scheduled_game(game, game_date)`: returns False without any
write when `gamePk` is falsy; otherwise upserts the two teams, parses the
date (a parse failure is caught by the function's own `try`, which
returns False, leaving the team writes committed), and issues the upsert
whose UPDATE branch rewrites home_team_id and away_team_id as well. -/
def insert_scheduled_game (g : SchedGameJson) (sched_date : Option String)
    (fail : Nat → Bool) (k : Nat) (db : DB) : Bool × DB × Nat :=
  if !truthyInt g.gamePk then (false, db, k)
  else
    let teams := g.teams.getD .empty
    let steps :=
      teamSteps (teams.home.getD .empty).team ++
      teamSteps (teams.away.getD .empty).team ++
      (match schedParsedDate g.gameDate sched_date with
       | .ok d => [.sql (insertGameFullQ (schedGameRowV1 g d))]
       | .error _ => [.raiseErr])
    runAuto steps fail k db

/-- The game loop of the first (shadowed) `load_schedule_data`, counting
attempts and successes. -/
def runGamesV1 (games : List SchedGameJson) (sched_date : Option String)
    (fail : Nat → Bool) (k : Nat) (db : DB) (total success : Nat) :
    DB × Nat × Nat × Nat :=
  match games with
  | [] => (db, k, total, success)
  | g :: rest =>
    let r := insert_scheduled_game g sched_date fail k db
    runGamesV1 rest sched_date fail r.2.2 r.2.1 (total + 1)
      (success + if r.1 then 1 else 0)

def runDatesV1 (dates : List DateEntryJson) (fail : Nat → Bool) (k : Nat)
    (db : DB) (total success : Nat) : DB × Nat × Nat × Nat :=
  match dates with
  | [] => (db, k, total, success)
  | e :: rest =>
    let r := runGamesV1 e.games e.date fail k db total success
    runDatesV1 rest fail r.2.1 r.1 r.2.2.1 r.2.2.2

/-- The first (earlier, shadowed) `load_schedule_data`: it compares the
success count to the total and returns their equality. -/
def load_schedule_data_v1 (sched : ScheduleJson) (connOk : Bool)
    (fail : Nat → Bool) (db : DB) : Bool × DB :=
  if connOk then
    let r := runDatesV1 sched.dates fail 0 db 0 0
    (r.2.2.1 == r.2.2.2, r.1)
  else (false, db)

/-- Date resolution of `_insert_game_from_schedule`: a string schedule
date is parsed with `strptime` (raising on an invalid one); a `None`
schedule date is bound as-is. -/
def schedFromDate (sched_date : Option String) : Except Unit (Option String) :=
  match sched_date with
  | some s => if validDate s then .ok (some s) else .error ()
  | none => .ok none

/-- The parameter row `_insert_game_from_schedule` binds: scores and
inning from the `linescore` dict via `.get` defaults, the status
`status.get('detailedState', status.get('abstractGameState', 'Unknown'))`,
metadata copied verbatim. -/
def schedGameRowV2 (game_id : Option Int) (g : SchedGameJson)
    (d : Option String) : GameRow :=
  let teams := g.teams.getD .empty
  let ls := g.linescore.getD .empty
  let lst := ls.teams.getD .empty
  let st := g.status.getD ⟨none, none⟩
  { game_id := game_id
    game_date := d
    home_team_id := ((teams.home.getD .empty).team.getD .empty).id
    away_team_id := ((teams.away.getD .empty).team.getD .empty).id
    home_score := ((lst.home.getD .empty).runs).getD 0
    away_score := ((lst.away.getD .empty).runs).getD 0
    inning := ls.currentInning
    inning_state := ls.inningState
    game_status := st.detailedState.getD (st.abstractGameState.getD "Unknown")
    game_type := g.gameType
    series_description := g.seriesDescription
    official_date := g.officialDate }

/-- `_insert_game_from_schedule(game_id, game_data, game_date)` as a step
sequence: the date parse (which may raise) precedes the single upsert,
whose UPDATE branch does not touch home_team_id or away_team_id. -/
def insertGameFromScheduleSteps (game_id : Option Int) (g : SchedGameJson)
    (sched_date : Option String) : List LoadStep :=
  match schedFromDate sched_date with
  | .ok d => [.sql (insertGameQ (schedGameRowV2 game_id g d))]
  | .error _ => [.raiseErr]

/-- The per-game body of the second `load_schedule_data`: team upserts,
then `_insert_game_from_schedule` with `game.get('gamePk')` unchecked. -/
def schedGameStepsV2 (g : SchedGameJson) (sched_date : Option String) :
    List LoadStep :=
  let teams := g.teams.getD .empty
  teamSteps (teams.home.getD .empty).team ++
  teamSteps (teams.away.getD .empty).team ++
  insertGameFromScheduleSteps g.gamePk g sched_date

/-- The game loop of the second `load_schedule_data`: each game's steps
run without a transaction and any exception is caught and the loop
continues with the next game. -/
def runGamesV2 (games : List SchedGameJson) (sched_date : Option String)
    (fail : Nat → Bool) (k : Nat) (db : DB) : DB × Nat :=
  match games with
  | [] => (db, k)
  | g :: rest =>
    let r := runAuto (schedGameStepsV2 g sched_date) fail k db
    runGamesV2 rest sched_date fail r.2.2 r.2.1

def runDatesV2 (dates : List DateEntryJson) (fail : Nat → Bool) (k : Nat)
    (db : DB) : DB × Nat :=
  match dates with
  | [] => (db, k)
  | e :: rest =>
    let r := runGamesV2 e.games e.date fail k db
    runDatesV2 rest fail r.2 r.1

/-- The second (later) `load_schedule_data`: once the connection
succeeds, every per-game failure is caught and logged inside the loop,
and the function returns True unconditionally at the end. -/
def load_schedule_data_v2 (sched : ScheduleJson) (connOk : Bool)
    (fail : Nat → Bool) (db : DB) : Bool × DB :=
  if connOk then (true, (runDatesV2 sched.dates fail 0 db).1)
  else (false, db)

/-- The definition in effect on instances: the later of the two
same-named class-body definitions shadows the earlier one. -/
def load_schedule_data := load_schedule_data_v2

/-! ## Derived views of the payload used in theorem statements -/

/-- The batting dict of a player entry:
`player_data.get('stats', {}).get('batting', {})`, `none` when falsy. -/
def battingOf (p : PlayerJson) : Option BattingJson :=
  (p.stats.getD ⟨none⟩).batting

/-- The (player_id, team_id, batting) triples a boxscore `players` dict
contributes, in processing order. -/
def sideEntries (tid : Option Int) (ps : List (String × PlayerJson)) :
    List (Option Int × Option Int × BattingJson) :=
  ps.filterMap (fun e =>
    if strStartsWith e.1 "ID" then
      match battingOf e.2 with
      | some b => some (e.2.person.bind (·.id), tid, b)
      | none => none
    else none)

/-- All batting triples of a boxscore body, home side then away side. -/
def boxEntries (bx : BoxscoreJson) : List (Option Int × Option Int × BattingJson) :=
  sideEntries (((bx.teams.getD .empty).home.getD .empty).team.bind (·.id))
    ((bx.teams.getD .empty).home.getD .empty).players ++
  sideEntries (((bx.teams.getD .empty).away.getD .empty).team.bind (·.id))
    ((bx.teams.getD .empty).away.getD .empty).players

/-- All batting triples of a combined payload. -/
def entriesOf (data : CombinedJson) : List (Option Int × Option Int × BattingJson) :=
  match data.boxscore with
  | some bx => boxEntries bx
  | none => []

/-- The boxscore row a batting triple produces for a game. -/
def rowOfEntry (gid : Option Int) (e : Option Int × Option Int × BattingJson) : BoxRow :=
  boxRowOf gid e.1 e.2.1 e.2.2

/-- One boxscore upsert statement, entry form. -/
def pushEntry (gid : Option Int) (rows : List BoxRow)
    (e : Option Int × Option Int × BattingJson) : List BoxRow :=
  upsertBoxRows gid e.1 e.2.1 e.2.2 rows

/-- The cumulative effect of a load's boxscore upserts on the table. -/
def pushEntries (gid : Option Int) (entries : List (Option Int × Option Int × BattingJson))
    (rows : List BoxRow) : List BoxRow :=
  entries.foldl (pushEntry gid) rows

/-! ## Concrete instances used by witnesses and counterexamples -/

/-- A failure oracle under which every database statement fails. -/
def failAll : Nat → Bool := fun _ => true

def teamTen : TeamJson := { TeamJson.empty with id := some 10, name := some "A" }

def teamTwenty : TeamJson := { TeamJson.empty with id := some 20, name := some "B" }

/-- Game-data body of the end-to-end combined example: home 10 scored 3,
away 20 scored 1, no current inning, embedded gameType "S". -/
def c1GD : GameDataJson :=
  { teams := some
      { home := some { team := some teamTen, runs := some 3, players := [] }
        away := some { team := some teamTwenty, runs := some 1, players := [] } }
    currentInning := none
    inningState := none
    gameDate := none
    gameType := some "S"
    seriesDescription := none
    officialDate := none }

/-- Boxscore body of the end-to-end combined example: one home batter,
player 501, with atBats 4, hits 2, homeRuns 1. -/
def c1BX : BoxscoreJson :=
  { teams := some
      { home := some
          { team := some teamTen
            runs := none
            players := [("ID501",
              { person := some { id := some 501, fullName := some "X", primaryPosition := none }
                stats := some { batting := some { BattingJson.empty with atBats := some 4, hits := some 2, homeRuns := some 1 } } })] }
        away := some { team := some teamTwenty, runs := none, players := [] } } }

/-- The end-to-end combined payload: game 700001 on 2024-04-10 with
top-level game_type "R". -/
def c1Data : CombinedJson :=
  { game_id := some 700001
    game_date := some "2024-04-10"
    game_type := some "R"
    official_date := none
    series_description := none
    game_data := some c1GD
    boxscore := some c1BX }

/-- A stored boxscore line for (game 1, player 2) with nonzero stats. -/
def c2Row : BoxRow :=
  { game_id := some 1
    player_id := some 2
    team_id := some 3
    at_bats := 5
    runs := 1
    hits := 2
    doubles := 0
    triples := 0
    home_runs := 0
    rbi := 0
    walks := 1
    strikeouts := 0 }

def c2DB : DB := { DB.empty with boxscore := [c2Row] }

/-- An incoming batting payload for the same key with different values. -/
def c2Batting : BattingJson :=
  { BattingJson.empty with
    atBats := some 7
    hits := some 3
    runs := some 2
    strikeOuts := some 1 }

/-- Game-data body whose home team is team 10. -/
def c3GD1 : GameDataJson :=
  { teams := some
      { home := some { team := some teamTen, runs := some 2, players := [] }
        away := some { team := some teamTwenty, runs := some 0, players := [] } }
    currentInning := none
    inningState := none
    gameDate := none
    gameType := none
    seriesDescription := none
    officialDate := none }

def teamThirty : TeamJson := { TeamJson.empty with id := some 30, name := some "C" }

/-- Game-data body for the same game whose home team is team 30. -/
def c3GD2 : GameDataJson :=
  { teams := some
      { home := some { team := some teamThirty, runs := some 4, players := [] }
        away := some { team := some teamTwenty, runs := some 2, players := [] } }
    currentInning := none
    inningState := none
    gameDate := none
    gameType := none
    seriesDescription := none
    officialDate := none }

def c3Data1 : CombinedJson :=
  { game_id := some 100
    game_date := some "2025-05-01"
    game_type := none
    official_date := none
    series_description := none
    game_data := some c3GD1
    boxscore := none }

def c3Data2 : CombinedJson :=
  { game_id := some 100
    game_date := some "2025-05-02"
    game_type := none
    official_date := none
    series_description := none
    game_data := some c3GD2
    boxscore := none }

/-- A schedule game descriptor for game 100 whose home team is team 30. -/
def c3SchedG : SchedGameJson :=
  { gamePk := some 100
    teams := some
      { home := some { team := some teamThirty, runs := none, players := [] }
        away := some { team := some teamTwenty, runs := none, players := [] } }
    status := none
    linescore := none
    gameDate := none
    gameType := none
    seriesDescription := none
    officialDate := none }

/-- A stored game row for game 100 with home team 10. -/
def c3Row : GameRow :=
  { game_id := some 100
    game_date := some "2025-05-01"
    home_team_id := some 10
    away_team_id := some 20
    home_score := 2
    away_score := 0
    inning := none
    inning_state := none
    game_status := "Final"
    game_type := none
    series_description := none
    official_date := none }

def c3DB : DB := { DB.empty with games := [c3Row] }

/-- A boxscore-only payload whose body carries `gamePk` 776000 and one
home team, so its load issues two statements (raw audit, team upsert). -/
def c4Dyn : Json := Json.obj [("gamePk", Json.num 776000)]

def c4BX : BoxscoreJson :=
  { teams := some
      { home := some { team := some teamTen, runs := none, players := [] }
        away := none } }

/-- A failure oracle failing exactly the second statement issued. -/
def c4Fail : Nat → Bool := fun k => k == 1

/-- A minimal combined payload. -/
def c5Data : CombinedJson :=
  { game_id := some 900
    game_date := none
    game_type := none
    official_date := none
    series_description := none
    game_data := none
    boxscore := none }

/-- A payload carrying no game identifier anywhere. -/
def c6Payload : Json := Json.obj [("teams", Json.obj [("home", Json.obj [])])]

/-- A batting payload written with the upstream API's field names:
baseOnBalls 3, hitByPitch 1, sacFlies 2, sacBunts 1. -/
def c7Batting : BattingJson :=
  { BattingJson.empty with
    atBats := some 4
    baseOnBalls := some 3
    hitByPitch := some 1
    sacFlies := some 2
    sacBunts := some 1
    strikeOuts := some 2 }

/-- Game-data body with an embedded gameType "S". -/
def c8GD : GameDataJson :=
  { teams := some
      { home := some { team := some teamTen, runs := some 1, players := [] }
        away := some { team := some teamTwenty, runs := some 0, players := [] } }
    currentInning := none
    inningState := none
    gameDate := none
    gameType := some "S"
    seriesDescription := none
    officialDate := none }

/-- Combined payload with top-level game_type "R" conflicting with the
embedded gameType "S". -/
def c8Data : CombinedJson :=
  { game_id := some 800
    game_date := some "2025-04-01"
    game_type := some "R"
    official_date := none
    series_description := none
    game_data := some c8GD
    boxscore := none }

/-- The same payload with an empty string as the top-level game_type. -/
def c8DataE : CombinedJson :=
  { game_id := some 800
    game_date := some "2025-04-01"
    game_type := some ""
    official_date := none
    series_description := none
    game_data := some c8GD
    boxscore := none }

/-- Game-data body whose current inning is 0: non-null but falsy. -/
def c9GD : GameDataJson :=
  { teams := none
    currentInning := some 0
    inningState := none
    gameDate := none
    gameType := none
    seriesDescription := none
    officialDate := none }

/-- Game-data body of a game live in the fifth inning. -/
def c9Live : GameDataJson :=
  { teams := none
    currentInning := some 5
    inningState := some "Top"
    gameDate := none
    gameType := none
    seriesDescription := none
    officialDate := none }

/-- Views of one minimal document for exercising the dispatcher on each
path. -/
def c5Views : PayloadViews :=
  { dyn := Json.obj []
    combined := c5Data
    boxscore := { teams := none }
    gamedata := c9GD }

/-- A schedule game descriptor with one team, so its processing issues at
least one statement. -/
def c10Game : SchedGameJson :=
  { gamePk := some 778001
    teams := some
      { home := some { team := some teamTen, runs := none, players := [] }
        away := none }
    status := none
    linescore := none
    gameDate := none
    gameType := some "R"
    seriesDescription := none
    officialDate := none }

def c10Sched : ScheduleJson :=
  { dates := [{ date := some "2025-03-27", games := [c10Game] }] }

/-! ## Generic list helpers -/

theorem listAnyFalse {α : Type} {p : α → Bool} :
    ∀ l : List α, (∀ a ∈ l, p a = false) → l.any p = false := by
  intro l h
  induction l with
  | nil => rfl
  | cons a rest ih =>
    simp only [List.any_cons, Bool.or_eq_false_iff]
    exact ⟨h a (List.mem_cons_self a rest), ih fun x hx => h x (List.mem_cons_of_mem a hx)⟩

theorem listFilterNil {α : Type} {p : α → Bool} :
    ∀ l : List α, (∀ a ∈ l, p a = false) → l.filter p = [] := by
  intro l h
  induction l with
  | nil => rfl
  | cons a rest ih =>
    rw [List.filter_cons, if_neg (by simp [h a (List.mem_cons_self a rest)])]
    exact ih fun x hx => h x (List.mem_cons_of_mem a hx)

theorem listMapSelf {α : Type} {f : α → α} :
    ∀ l : List α, (∀ a ∈ l, f a = a) → l.map f = l := by
  intro l h
  induction l with
  | nil => rfl
  | cons a rest ih =>
    rw [List.map_cons, h a (List.mem_cons_self a rest),
      ih fun x hx => h x (List.mem_cons_of_mem a hx)]

/-! ## Facts about SQL nullable-key equality -/

@[simp] theorem sqlEqI_some_some (a b : Int) : sqlEqI (some a) (some b) = (a == b) := rfl

@[simp] theorem sqlEqI_none_left (b : Option Int) : sqlEqI none b = false := by
  cases b <;> rfl

@[simp] theorem sqlEqI_none_right (a : Option Int) : sqlEqI a none = false := by
  cases a <;> rfl

theorem sqlEqI_of_ne {x : Option Int} {g : Int} (h : x ≠ some g) :
    sqlEqI x (some g) = false := by
  cases x with
  | none => simp
  | some a => simp_all

theorem sqlEqI_self_of_isSome {x : Option Int} (h : x.isSome = true) :
    sqlEqI x x = true := by
  cases x with
  | none => simp at h
  | some a => simp

/-! ## Step-sequence runner lemmas -/

@[simp] theorem applySteps_nil (db : DB) : applySteps [] db = db := rfl

@[simp] theorem applySteps_cons (s : LoadStep) (l : List LoadStep) (db : DB) :
    applySteps (s :: l) db = applySteps l (s.app db) := rfl

@[simp] theorem loadStep_app_sql (f : DB → DB) (db : DB) :
    (LoadStep.sql f).app db = f db := rfl

theorem applySteps_append (l1 l2 : List LoadStep) (db : DB) :
    applySteps (l1 ++ l2) db = applySteps l2 (applySteps l1 db) := by
  induction l1 generalizing db with
  | nil => rfl
  | cons s rest ih => simp [ih]

theorem noRaise_append (l1 l2 : List LoadStep) :
    noRaise (l1 ++ l2) = (noRaise l1 && noRaise l2) := by
  induction l1 with
  | nil => rfl
  | cons s rest ih => cases s <;> simp [noRaise, ih]

theorem runTx_noFail_of_noRaise :
    ∀ (steps : List LoadStep) (k : Nat) (db : DB), noRaise steps = true →
      (runTx steps noFail k db).1 = .ok (applySteps steps db) := by
  intro steps
  induction steps with
  | nil => intro k db _; rfl
  | cons s rest ih =>
    intro k db h
    cases s with
    | sql f => simpa [runTx, noFail] using ih (k + 1) (f db) (by simpa [noRaise] using h)
    | raiseErr => simp [noRaise] at h

theorem runTx_noFail_of_raise :
    ∀ (steps : List LoadStep) (k : Nat) (db : DB), noRaise steps = false →
      (runTx steps noFail k db).1 = .failPy := by
  intro steps
  induction steps with
  | nil => intro k db h; simp [noRaise] at h
  | cons s rest ih =>
    intro k db h
    cases s with
    | sql f => simpa [runTx, noFail] using ih (k + 1) (f db) (by simpa [noRaise] using h)
    | raiseErr => rfl

theorem runTx_ok_state :
    ∀ (steps : List LoadStep) (fail : Nat → Bool) (k : Nat) (db db' : DB),
      (runTx steps fail k db).1 = .ok db' → db' = applySteps steps db := by
  intro steps
  induction steps with
  | nil =>
    intro fail k db db' h
    simpa [runTx] using h.symm
  | cons s rest ih =>
    intro fail k db db' h
    cases s with
    | sql f =>
      by_cases hf : fail k = true
      · simp [runTx, hf] at h
      · rw [runTx, if_neg hf] at h
        simpa using ih fail (k + 1) (f db) db' h
    | raiseErr => simp [runTx] at h

/-- `_load_combined_data` under a failure-free database: it succeeds and
applies every statement exactly when no Python-level failure occurs, and
otherwise leaves the state untouched. -/
theorem load_combined_noFail (data : CombinedJson) (t : String) (db : DB) :
    load_combined_data data t noFail db =
      if noRaise (combinedSteps data t) then
        (true, applySteps (combinedSteps data t) db)
      else (false, db) := by
  by_cases h : noRaise (combinedSteps data t) = true
  · rw [if_pos h]
    unfold load_combined_data
    rw [runTx_noFail_of_noRaise _ 0 db h]
  · rw [if_neg h]
    unfold load_combined_data
    rw [runTx_noFail_of_raise _ 0 db (by simpa using h)]

/-! ## Which tables each statement touches -/

@[simp] theorem games_insertTeamQ (p : TeamRow) (db : DB) :
    (insertTeamQ p db).games = db.games := by
  unfold insertTeamQ; split <;> rfl

@[simp] theorem box_insertTeamQ (p : TeamRow) (db : DB) :
    (insertTeamQ p db).boxscore = db.boxscore := by
  unfold insertTeamQ; split <;> rfl

@[simp] theorem games_insertPlayerQ (p : PlayerRow) (db : DB) :
    (insertPlayerQ p db).games = db.games := by
  unfold insertPlayerQ; split <;> rfl

@[simp] theorem box_insertPlayerQ (p : PlayerRow) (db : DB) :
    (insertPlayerQ p db).boxscore = db.boxscore := by
  unfold insertPlayerQ; split <;> rfl

@[simp] theorem games_saveRawQ (g : Option Int) (ty : String) (db : DB) :
    (saveRawQ g ty db).games = db.games := rfl

@[simp] theorem box_saveRawQ (g : Option Int) (ty : String) (db : DB) :
    (saveRawQ g ty db).boxscore = db.boxscore := rfl

@[simp] theorem games_insertGameQ (p : GameRow) (db : DB) :
    (insertGameQ p db).games = upsertGames p db.games := rfl

@[simp] theorem box_insertGameQ (p : GameRow) (db : DB) :
    (insertGameQ p db).boxscore = db.boxscore := rfl

@[simp] theorem games_insertBox (g pl tm : Option Int) (b : BattingJson) (db : DB) :
    (insert_boxscore_stats g pl tm b db).games = db.games := rfl

@[simp] theorem box_insertBox (g pl tm : Option Int) (b : BattingJson) (db : DB) :
    (insert_boxscore_stats g pl tm b db).boxscore =
      upsertBoxRows g pl tm b db.boxscore := rfl

theorem games_applySteps_teamSteps (t : Option TeamJson) (db : DB) :
    (applySteps (teamSteps t) db).games = db.games := by
  cases t <;> simp [teamSteps]

theorem box_applySteps_teamSteps (t : Option TeamJson) (db : DB) :
    (applySteps (teamSteps t) db).boxscore = db.boxscore := by
  cases t <;> simp [teamSteps]

theorem games_applySteps_playerSteps (gid tid : Option Int)
    (e : String × PlayerJson) (db : DB) :
    (applySteps (playerSteps gid tid e) db).games = db.games := by
  unfold playerSteps
  split
  · cases e.2.person <;> cases (e.2.stats.getD ⟨none⟩).batting <;> simp
  · rfl

theorem games_applySteps_players (gid tid : Option Int)
    (ps : List (String × PlayerJson)) (db : DB) :
    (applySteps (ps.flatMap (playerSteps gid tid)) db).games = db.games := by
  induction ps generalizing db with
  | nil => rfl
  | cons e rest ih =>
    rw [List.flatMap_cons, applySteps_append, ih, games_applySteps_playerSteps]

theorem box_applySteps_players (gid tid : Option Int)
    (ps : List (String × PlayerJson)) (db : DB) :
    (applySteps (ps.flatMap (playerSteps gid tid)) db).boxscore =
      pushEntries gid (sideEntries tid ps) db.boxscore := by
  induction ps generalizing db with
  | nil => rfl
  | cons e rest ih =>
    rw [List.flatMap_cons, applySteps_append, ih]
    unfold sideEntries
    rw [List.filterMap_cons]
    unfold playerSteps
    by_cases hs : strStartsWith e.1 "ID" = true
    · simp only [hs, if_true]
      cases hb : battingOf e.2 with
      | none =>
        unfold battingOf at hb
        cases hp : e.2.person <;> simp [hb, pushEntries]
      | some b =>
        unfold battingOf at hb
        cases hp : e.2.person <;>
          simp [hb, hp, pushEntries, pushEntry, List.foldl_cons]
    · simp only [hs]
      simp [pushEntries]

theorem games_applySteps_sideSteps (gid : Option Int) (side : Option SideJson) (db : DB) :
    (applySteps (sideSteps gid side) db).games = db.games := by
  unfold sideSteps
  rw [applySteps_append, games_applySteps_players, games_applySteps_teamSteps]

theorem box_applySteps_sideSteps (gid : Option Int) (side : Option SideJson) (db : DB) :
    (applySteps (sideSteps gid side) db).boxscore =
      pushEntries gid
        (sideEntries ((side.getD .empty).team.bind (·.id)) (side.getD .empty).players)
        db.boxscore := by
  unfold sideSteps
  rw [applySteps_append, box_applySteps_players, box_applySteps_teamSteps]

theorem games_applySteps_processBox (gid : Option Int) (bx : BoxscoreJson) (db : DB) :
    (applySteps (processBoxscoreSteps gid bx) db).games = db.games := by
  unfold processBoxscoreSteps
  rw [applySteps_append, games_applySteps_sideSteps, games_applySteps_sideSteps]

theorem box_applySteps_processBox (gid : Option Int) (bx : BoxscoreJson) (db : DB) :
    (applySteps (processBoxscoreSteps gid bx) db).boxscore =
      pushEntries gid (boxEntries bx) db.boxscore := by
  unfold processBoxscoreSteps boxEntries
  rw [applySteps_append, box_applySteps_sideSteps, box_applySteps_sideSteps]
  unfold pushEntries
  rw [List.foldl_append]

theorem games_applySteps_processGame (gid : Option Int) (gd : GameDataJson)
    (gdate : Option String) (gm : Option MetaJson) (t : String) (db : DB)
    (d : String) (hd : parseGameDate gdate gd.gameDate t = .ok d) :
    (applySteps (processGameDataSteps gid gd gdate gm t) db).games =
      upsertGames (gameRowParams gid gd (homeTeamOf gd) (awayTeamOf gd) d (gm.getD .empty))
        db.games := by
  unfold processGameDataSteps
  rw [hd]
  rw [applySteps_append, applySteps_append]
  simp [games_applySteps_teamSteps]

theorem box_applySteps_processGame (gid : Option Int) (gd : GameDataJson)
    (gdate : Option String) (gm : Option MetaJson) (t : String) (db : DB) :
    (applySteps (processGameDataSteps gid gd gdate gm t) db).boxscore = db.boxscore := by
  unfold processGameDataSteps
  rw [applySteps_append, applySteps_append]
  cases parseGameDate gdate gd.gameDate t <;>
    simp [box_applySteps_teamSteps, LoadStep.app]

/-! ## Raise-freedom of the step emitters -/

theorem noRaise_teamSteps (t : Option TeamJson) : noRaise (teamSteps t) = true := by
  cases t <;> rfl

theorem noRaise_playerSteps (gid tid : Option Int) (e : String × PlayerJson) :
    noRaise (playerSteps gid tid e) = true := by
  unfold playerSteps
  split
  · cases e.2.person <;> cases (e.2.stats.getD ⟨none⟩).batting <;> rfl
  · rfl

theorem noRaise_players (gid tid : Option Int) (ps : List (String × PlayerJson)) :
    noRaise (ps.flatMap (playerSteps gid tid)) = true := by
  induction ps with
  | nil => rfl
  | cons e rest ih =>
    rw [List.flatMap_cons, noRaise_append, noRaise_playerSteps, ih]
    rfl

theorem noRaise_processBox (gid : Option Int) (bx : BoxscoreJson) :
    noRaise (processBoxscoreSteps gid bx) = true := by
  unfold processBoxscoreSteps sideSteps
  rw [noRaise_append, noRaise_append, noRaise_append]
  rw [noRaise_teamSteps, noRaise_teamSteps, noRaise_players, noRaise_players]
  rfl

theorem noRaise_processGame (gid : Option Int) (gd : GameDataJson)
    (gdate : Option String) (gm : Option MetaJson) (t : String) :
    noRaise (processGameDataSteps gid gd gdate gm t) =
      (parseGameDate gdate gd.gameDate t).isOk := by
  unfold processGameDataSteps
  rw [noRaise_append, noRaise_append, noRaise_teamSteps, noRaise_teamSteps]
  cases parseGameDate gdate gd.gameDate t <;> rfl

@[simp] theorem exceptToBool_ok {ε α : Type} (x : α) :
    (Except.ok x : Except ε α).toBool = true := rfl

@[simp] theorem exceptToBool_error {ε α : Type} (e : ε) :
    (Except.error e : Except ε α).toBool = false := rfl

/-- Whether the date resolution of `_insert_game` succeeds does not
depend on today's date (only the resulting value can). -/
theorem parseGameDate_isOk_indep (gdate iso : Option String) (t1 t2 : String) :
    (parseGameDate gdate iso t1).isOk = (parseGameDate gdate iso t2).isOk := by
  cases gdate with
  | none => simp [parseGameDate, Except.isOk]
  | some s =>
    by_cases h : (s != "") = true
    · simp only [parseGameDate, if_pos h]
    · simp only [parseGameDate, if_neg h]
      simp [Except.isOk]

theorem noRaise_combinedSteps (data : CombinedJson) (t : String) :
    noRaise (combinedSteps data t) =
      (match data.game_data with
       | some gd => (parseGameDate data.game_date gd.gameDate t).isOk
       | none => true) := by
  unfold combinedSteps
  rw [show ∀ s l, noRaise (LoadStep.sql s :: l) = noRaise l from fun _ _ => rfl,
    noRaise_append]
  cases data.game_data with
  | none =>
    cases data.boxscore with
    | none => rfl
    | some bx => simp [noRaise, noRaise_processBox]
  | some gd =>
    rw [noRaise_processGame]
    cases data.boxscore with
    | none => simp [noRaise]
    | some bx => simp [noRaise_processBox]

/-! ## Characterizations of a combined load's effect -/

theorem games_applySteps_combined (data : CombinedJson) (t : String) (db : DB)
    (gd : GameDataJson) (d : String)
    (hgd : data.game_data = some gd)
    (hd : parseGameDate data.game_date gd.gameDate t = .ok d) :
    (applySteps (combinedSteps data t) db).games =
      upsertGames (combinedGameRow data gd d) db.games := by
  unfold combinedSteps
  rw [hgd, applySteps_cons, applySteps_append]
  have h1 := games_applySteps_processGame data.game_id gd data.game_date
    (some (metaOf data)) t (LoadStep.app (.sql (saveRawQ data.game_id "combined")) db) d hd
  cases data.boxscore with
  | none =>
    simp only [applySteps_nil]
    rw [h1]
    rfl
  | some bx =>
    rw [games_applySteps_processBox, h1]
    rfl

theorem box_applySteps_combined (data : CombinedJson) (t : String) (db : DB) :
    (applySteps (combinedSteps data t) db).boxscore =
      (match data.boxscore with
       | some bx => pushEntries data.game_id (boxEntries bx) db.boxscore
       | none => db.boxscore) := by
  unfold combinedSteps
  rw [applySteps_cons, applySteps_append]
  cases data.game_data with
  | none =>
    cases data.boxscore with
    | none => rfl
    | some bx => rw [show applySteps [] _ = _ from rfl, box_applySteps_processBox]; rfl
  | some gd =>
    have h1 := box_applySteps_processGame data.game_id gd data.game_date
      (some (metaOf data)) t (LoadStep.app (.sql (saveRawQ data.game_id "combined")) db)
    cases data.boxscore with
    | none => simp only [applySteps_nil]; rw [h1]; rfl
    | some bx => rw [box_applySteps_processBox, h1]; rfl

theorem box_applySteps_combined_some (data : CombinedJson) (t : String) (db : DB)
    (bx : BoxscoreJson) (hbx : data.boxscore = some bx) :
    (applySteps (combinedSteps data t) db).boxscore =
      pushEntries data.game_id (boxEntries bx) db.boxscore := by
  rw [box_applySteps_combined, hbx]

theorem box_applySteps_combined_none (data : CombinedJson) (t : String) (db : DB)
    (hbx : data.boxscore = none) :
    (applySteps (combinedSteps data t) db).boxscore = db.boxscore := by
  rw [box_applySteps_combined, hbx]

theorem entriesOf_some (data : CombinedJson) (bx : BoxscoreJson)
    (hbx : data.boxscore = some bx) : entriesOf data = boxEntries bx := by
  unfold entriesOf
  rw [hbx]

theorem entriesOf_none (data : CombinedJson) (hbx : data.boxscore = none) :
    entriesOf data = [] := by
  unfold entriesOf
  rw [hbx]

/-! ## Behaviour of the boxscore upsert sequence -/

theorem keyMatch_rowOfEntry_self {gid : Option Int} (hg : gid.isSome = true)
    (e : Option Int × Option Int × BattingJson) (he : e.1.isSome = true) :
    keyMatch gid e.1 (rowOfEntry gid e) = true := by
  unfold keyMatch rowOfEntry boxRowOf
  rw [sqlEqI_self_of_isSome hg, sqlEqI_self_of_isSome he]
  rfl

theorem keyMatch_rowOfEntry_ne {gid : Option Int}
    {e e' : Option Int × Option Int × BattingJson}
    (he : e.1.isSome = true) (hne : e.1 ≠ e'.1) :
    keyMatch gid e'.1 (rowOfEntry gid e) = false := by
  unfold keyMatch rowOfEntry boxRowOf
  obtain ⟨a, ha⟩ := Option.isSome_iff_exists.mp he
  cases h' : e'.1 with
  | none => simp
  | some b =>
    have : a ≠ b := by
      intro hab
      exact hne (by rw [ha, h', hab])
    simp [ha, this, Bool.and_eq_false_iff]

/-- Running the upsert sequence over entries none of which matches an
existing row appends exactly one row per entry, in order, provided the
player ids are present and pairwise distinct. -/
theorem pushEntries_of_noMatch (gid : Option Int) :
    ∀ (entries : List (Option Int × Option Int × BattingJson)) (rows : List BoxRow),
      (∀ e ∈ entries, ∀ r ∈ rows, keyMatch gid e.1 r = false) →
      (∀ e ∈ entries, e.1.isSome = true) →
      (entries.map (·.1)).Nodup →
      pushEntries gid entries rows = rows ++ entries.map (rowOfEntry gid) := by
  intro entries
  induction entries with
  | nil => intro rows _ _ _; simp [pushEntries]
  | cons e rest ih =>
    intro rows hnm hsome hnodup
    have hany : rows.any (keyMatch gid e.1) = false :=
      listAnyFalse rows fun r hr => hnm e (List.mem_cons_self e rest) r hr
    have hstep : pushEntry gid rows e = rows ++ [rowOfEntry gid e] := by
      unfold pushEntry upsertBoxRows
      rw [hany]
      rfl
    have hrest : pushEntries gid rest (rows ++ [rowOfEntry gid e]) =
        (rows ++ [rowOfEntry gid e]) ++ rest.map (rowOfEntry gid) := by
      refine ih (rows ++ [rowOfEntry gid e]) ?_ ?_ ?_
      · intro e' he' r hr
        rcases List.mem_append.mp hr with h | h
        · exact hnm e' (List.mem_cons_of_mem e he') r h
        · have : r = rowOfEntry gid e := by simpa using h
          subst this
          refine keyMatch_rowOfEntry_ne (hsome e (List.mem_cons_self e rest)) ?_
          intro hEq
          have : e.1 ∈ rest.map (·.1) := hEq ▸ List.mem_map_of_mem (·.1) he'
          exact (List.nodup_cons.mp hnodup).1 this
      · exact fun e' he' => hsome e' (List.mem_cons_of_mem e he')
      · exact (List.nodup_cons.mp hnodup).2
    calc pushEntries gid (e :: rest) rows
        = pushEntries gid rest (pushEntry gid rows e) := rfl
      _ = pushEntries gid rest (rows ++ [rowOfEntry gid e]) := by rw [hstep]
      _ = (rows ++ [rowOfEntry gid e]) ++ rest.map (rowOfEntry gid) := hrest
      _ = rows ++ (e :: rest).map (rowOfEntry gid) := by simp

/-- Running the upsert sequence when every entry already has a matching
row writes nothing at all. -/
theorem pushEntries_of_allMatch (gid : Option Int) :
    ∀ (entries : List (Option Int × Option Int × BattingJson)) (rows : List BoxRow),
      (∀ e ∈ entries, rows.any (keyMatch gid e.1) = true) →
      pushEntries gid entries rows = rows := by
  intro entries
  induction entries with
  | nil => intro rows _; rfl
  | cons e rest ih =>
    intro rows h
    have hstep : pushEntry gid rows e = rows := by
      unfold pushEntry upsertBoxRows
      rw [h e (List.mem_cons_self e rest)]
      rfl
    calc pushEntries gid (e :: rest) rows
        = pushEntries gid rest (pushEntry gid rows e) := rfl
      _ = pushEntries gid rest rows := by rw [hstep]
      _ = rows := ih rows fun e' he' => h e' (List.mem_cons_of_mem e he')

/-- Among the rows produced from a duplicate-free entry list, exactly the
row of an entry matches that entry's key. -/
theorem filter_rowOfEntry (g : Int) :
    ∀ (entries : List (Option Int × Option Int × BattingJson)),
      (∀ e ∈ entries, e.1.isSome = true) →
      (entries.map (·.1)).Nodup →
      ∀ e ∈ entries,
        (entries.map (rowOfEntry (some g))).filter (keyMatch (some g) e.1) =
          [rowOfEntry (some g) e] := by
  intro entries
  induction entries with
  | nil => intro _ _ e he; simp at he
  | cons a rest ih =>
    intro hsome hnodup e he
    rcases List.mem_cons.mp he with rfl | he'
    · rw [List.map_cons, List.filter_cons,
        if_pos (@keyMatch_rowOfEntry_self (some g) rfl e (hsome e (List.mem_cons_self e rest)))]
      rw [listFilterNil]
      intro r hr
      obtain ⟨e', he', rfl⟩ := List.mem_map.mp hr
      refine keyMatch_rowOfEntry_ne (hsome e' (List.mem_cons_of_mem e he')) ?_
      intro hEq
      have : e.1 ∈ rest.map (·.1) := hEq.symm ▸ List.mem_map_of_mem (·.1) he'
      exact (List.nodup_cons.mp hnodup).1 this
    · rw [List.map_cons, List.filter_cons,
        if_neg ?_, ih (fun x hx => hsome x (List.mem_cons_of_mem a hx))
          (List.nodup_cons.mp hnodup).2 e he']
      rw [Bool.not_eq_true]
      refine keyMatch_rowOfEntry_ne (hsome a (List.mem_cons_self a rest)) ?_
      intro hEq
      have : a.1 ∈ rest.map (·.1) := hEq ▸ List.mem_map_of_mem (·.1) he'
      exact (List.nodup_cons.mp hnodup).1 this

/-! ## Behaviour of the games upsert -/

theorem upsertGames_fresh (p : GameRow) (rows : List GameRow)
    (h : ∀ r ∈ rows, sqlEqI r.game_id p.game_id = false) :
    upsertGames p rows = rows ++ [p] := by
  unfold upsertGames
  rw [listAnyFalse rows h]
  rfl

/-- A second upsert with the same key updates the previously inserted row
in place and touches no other row. -/
theorem upsertGames_update (p2 p1 : GameRow) (rows : List GameRow) (g : Int)
    (hid1 : p1.game_id = some g) (hid2 : p2.game_id = some g)
    (h : ∀ r ∈ rows, r.game_id ≠ some g) :
    upsertGames p2 (rows ++ [p1]) = rows ++ [applyGameUpdate p2 p1] := by
  unfold upsertGames
  have hp1 : sqlEqI p1.game_id p2.game_id = true := by
    rw [hid1, hid2]; simp
  rw [if_pos ?_, List.map_append, List.map_cons, List.map_nil, if_pos hp1,
    listMapSelf rows ?_]
  · intro r hr
    rw [if_neg ?_]
    rw [hid2]
    simp [sqlEqI_of_ne (h r hr)]
  · exact List.any_eq_true.mpr ⟨p1, List.mem_append_right rows (by simp), hp1⟩

/-- The partial update of `_insert_game` applied to a row the same payload
produced earlier yields exactly the new parameter row: the fields the
update skips (game_id and the two team ids) are computed from the payload
alone, so they already agree. -/
theorem applyGameUpdate_combinedGameRow (data : CombinedJson) (gd : GameDataJson)
    (d1 d2 : String) :
    applyGameUpdate (combinedGameRow data gd d2) (combinedGameRow data gd d1) =
      combinedGameRow data gd d2 := rfl

/-! ## C1: idempotence of a combined reload -/

/-- C1: loading the same combined payload twice leaves exactly one Game
row for the payload's game_id and exactly one BoxscoreLine row per
(game_id, player_id) appearing in the payload, and every stored field of
those rows equals the value computed from the second load's input —
nothing is duplicated and nothing is summed.  The hypotheses say that the
payload carries a game_id and a game_data body, that the database holds
no prior rows for this game, that the payload's batting entries carry
distinct player ids, that the first load succeeded, and that the second
load's date resolution yields `d2`. -/
theorem C1_idempotence (data : CombinedJson) (gd : GameDataJson)
    (t1 t2 d2 : String) (db0 : DB) (g : Int)
    (hgid : data.game_id = some g)
    (hgd : data.game_data = some gd)
    (hfreshG : ∀ r ∈ db0.games, r.game_id ≠ some g)
    (hfreshB : ∀ r ∈ db0.boxscore, r.game_id ≠ some g)
    (hsome : ∀ e ∈ entriesOf data, e.1.isSome = true)
    (hnodup : ((entriesOf data).map (·.1)).Nodup)
    (h1 : (load_combined_data data t1 noFail db0).1 = true)
    (hd2 : parseGameDate data.game_date gd.gameDate t2 = .ok d2) :
    ((load_combined_data data t2 noFail
        (load_combined_data data t1 noFail db0).2).2.games.filter
          (fun r => r.game_id == some g) = [combinedGameRow data gd d2])
    ∧ ∀ e ∈ entriesOf data,
        (load_combined_data data t2 noFail
          (load_combined_data data t1 noFail db0).2).2.boxscore.filter
            (keyMatch (some g) e.1) = [boxRowOf (some g) e.1 e.2.1 e.2.2] := by
  -- the first load is raise-free, hence fully applied
  have hnr1 : noRaise (combinedSteps data t1) = true := by
    by_contra hn
    rw [load_combined_noFail, if_neg hn] at h1
    simp at h1
  -- so is the second load, because date resolution succeeds independent of today
  have hnr2 : noRaise (combinedSteps data t2) = true := by
    rw [noRaise_combinedSteps, hgd]
    show (parseGameDate data.game_date gd.gameDate t2).isOk = true
    rw [hd2]
    rfl
  have hst1 : (load_combined_data data t1 noFail db0).2 =
      applySteps (combinedSteps data t1) db0 := by
    rw [load_combined_noFail, if_pos hnr1]
  have hst2 : (load_combined_data data t2 noFail
      (load_combined_data data t1 noFail db0).2).2 =
      applySteps (combinedSteps data t2) (applySteps (combinedSteps data t1) db0) := by
    rw [hst1, load_combined_noFail, if_pos hnr2]
  rw [hst2]
  -- the first load's date also resolved, to some d1
  have hok1 : (parseGameDate data.game_date gd.gameDate t1).isOk = true := by
    rw [noRaise_combinedSteps, hgd] at hnr1
    exact hnr1
  obtain ⟨d1, hd1⟩ : ∃ d1, parseGameDate data.game_date gd.gameDate t1 = .ok d1 := by
    cases hp : parseGameDate data.game_date gd.gameDate t1 with
    | ok d => exact ⟨d, rfl⟩
    | error _ => rw [hp] at hok1; simp [Except.isOk] at hok1
  -- characterize the games table after both loads
  have hG1 := games_applySteps_combined data t1 db0 gd d1 hgd hd1
  have hG2 := games_applySteps_combined data t2
    (applySteps (combinedSteps data t1) db0) gd d2 hgd hd2
  have hid1 : (combinedGameRow data gd d1).game_id = some g := hgid
  have hid2 : (combinedGameRow data gd d2).game_id = some g := hgid
  have hGames1 : (applySteps (combinedSteps data t1) db0).games =
      db0.games ++ [combinedGameRow data gd d1] := by
    rw [hG1, upsertGames_fresh]
    intro r hr
    rw [hid1]
    exact sqlEqI_of_ne (hfreshG r hr)
  have hGames2 : (applySteps (combinedSteps data t2)
      (applySteps (combinedSteps data t1) db0)).games =
      db0.games ++ [combinedGameRow data gd d2] := by
    rw [hG2, hGames1, upsertGames_update _ _ _ g hid1 hid2 hfreshG,
      applyGameUpdate_combinedGameRow]
  -- characterize the boxscore table after both loads
  have hBoxPush : (applySteps (combinedSteps data t1) db0).boxscore =
      db0.boxscore ++ (entriesOf data).map (rowOfEntry (some g)) := by
    cases hbx : data.boxscore with
    | none =>
      rw [box_applySteps_combined_none data t1 db0 hbx, entriesOf_none data hbx]
      simp
    | some bx =>
      have hnodup' := hnodup
      rw [entriesOf_some data bx hbx] at hnodup'
      rw [box_applySteps_combined_some data t1 db0 bx hbx, hgid,
        entriesOf_some data bx hbx]
      refine pushEntries_of_noMatch (some g) (boxEntries bx) db0.boxscore ?_ ?_ hnodup'
      · intro e _ r hr
        simp [keyMatch, sqlEqI_of_ne (hfreshB r hr)]
      · intro e he
        exact hsome e (by rw [entriesOf_some data bx hbx]; exact he)
  have hBox2 : (applySteps (combinedSteps data t2)
      (applySteps (combinedSteps data t1) db0)).boxscore =
      db0.boxscore ++ (entriesOf data).map (rowOfEntry (some g)) := by
    cases hbx : data.boxscore with
    | none => rw [box_applySteps_combined_none data t2 _ hbx, hBoxPush]
    | some bx =>
      rw [box_applySteps_combined_some data t2 _ bx hbx, hgid, hBoxPush]
      refine pushEntries_of_allMatch (some g) (boxEntries bx) _ ?_
      intro e he
      have heO : e ∈ entriesOf data := by rw [entriesOf_some data bx hbx]; exact he
      exact List.any_eq_true.mpr ⟨rowOfEntry (some g) e,
        List.mem_append_right _ (List.mem_map_of_mem _ heO),
        @keyMatch_rowOfEntry_self (some g) rfl e (hsome e heO)⟩
  -- conclude for the games table
  constructor
  · rw [hGames2, List.filter_append,
      listFilterNil db0.games (fun r hr => beq_eq_false_iff_ne.mpr (hfreshG r hr)),
      List.filter_cons,
      if_pos (show ((combinedGameRow data gd d2).game_id == some g) = true by
        rw [hid2]; simp),
      List.filter_nil, List.nil_append]
  -- conclude for the boxscore table
  · intro e he
    rw [hBox2, List.filter_append,
      listFilterNil db0.boxscore
        (fun r hr => by simp [keyMatch, sqlEqI_of_ne (hfreshB r hr)]),
      filter_rowOfEntry g (entriesOf data) hsome hnodup e he, List.nil_append]
    rfl

/-- Witness for C1 at the end-to-end example payload: game 700001 loaded
twice on consecutive days. -/
theorem C1_idempotence_witness :
    ((load_combined_data c1Data "2024-04-11" noFail
        (load_combined_data c1Data "2024-04-10" noFail DB.empty).2).2.games.filter
          (fun r => r.game_id == some 700001) = [combinedGameRow c1Data c1GD "2024-04-10"])
    ∧ ∀ e ∈ entriesOf c1Data,
        (load_combined_data c1Data "2024-04-11" noFail
          (load_combined_data c1Data "2024-04-10" noFail DB.empty).2).2.boxscore.filter
            (keyMatch (some 700001) e.1) = [boxRowOf (some 700001) e.1 e.2.1 e.2.2] :=
  C1_idempotence c1Data c1GD "2024-04-10" "2024-04-11" "2024-04-10" DB.empty 700001
    rfl rfl (by simp [DB.empty]) (by simp [DB.empty]) (by decide) (by decide)
    (by rfl) (by rfl)

/-! ## C2: the boxscore line writer has no update path -/

/-- C2 (counterexample): calling the boxscore writer for a key that
already has a row leaves the database exactly as it was — the incoming
at_bats 7 is not written over the stored at_bats 5, refuting both the
update-then-insert algorithm and the unconditional overwrite the claim
asserts. -/
theorem C2_counterexample :
    insert_boxscore_stats (some 1) (some 2) (some 3) c2Batting c2DB = c2DB
    ∧ c2Batting.atBats = some 7
    ∧ c2DB.boxscore.map (·.at_bats) = [5] :=
  ⟨rfl, rfl, rfl⟩

/-- C2 (amended): `_insert_boxscore_stats` performs an existence check on
the (game_id, player_id) composite key and inserts only when no row
matches; when a row exists the call writes nothing and modifies no field.
On insert, every numeric field is taken from the payload with zero as the
default for an absent key, walks being read from the key `walks` and
strikeouts from `strikeOuts`. -/
theorem C2_amended (g p t : Option Int) (b : BattingJson) (db : DB) :
    insert_boxscore_stats g p t b db =
      (if db.boxscore.any (keyMatch g p) then db
       else { db with boxscore := db.boxscore ++ [boxRowOf g p t b] })
    ∧ (boxRowOf g p t b).at_bats = b.atBats.getD 0
    ∧ (boxRowOf g p t b).walks = b.walks.getD 0
    ∧ (boxRowOf g p t b).strikeouts = b.strikeOuts.getD 0 := by
  refine ⟨?_, rfl, rfl, rfl⟩
  by_cases h : db.boxscore.any (keyMatch g p) = true
  · rw [if_pos h]
    unfold insert_boxscore_stats upsertBoxRows
    rw [if_pos h]
  · rw [if_neg h]
    unfold insert_boxscore_stats upsertBoxRows
    rw [if_neg h]

/-! ## C3: the game UPDATE branch does not rewrite team ids -/

/-- C3: reloading game 100 with a payload whose home team is 30 leaves
the stored home_team_id at 10, because the UPDATE branch of
`_insert_game` (and of `_insert_game_from_schedule`) omits home_team_id
and away_team_id; the row the second payload computes carries 30. -/
theorem C3_code_behavior :
    ((load_combined_data c3Data2 "2025-05-03" noFail
        (load_combined_data c3Data1 "2025-05-02" noFail DB.empty).2).2.games.map
          (·.home_team_id) = [some 10])
    ∧ (combinedGameRow c3Data2 c3GD2 "2025-05-02").home_team_id = some 30
    ∧ ((insertGameQ (schedGameRowV2 (some 100) c3SchedG (some "2025-05-02")) c3DB).games.map
        (·.home_team_id) = [some 10])
    ∧ (schedGameRowV2 (some 100) c3SchedG (some "2025-05-02")).home_team_id = some 30 :=
  ⟨rfl, rfl, rfl, rfl⟩

/-! ## C4: only the combined path is atomic -/

/-- C4 (counterexample): a boxscore-only load whose second statement
fails returns False with the first statement's write — the raw-JSON audit
row — still committed, so rows from the failed file remain. -/
theorem C4_counterexample :
    load_boxscore_data c4Dyn c4BX c4Fail DB.empty =
      (false, { DB.empty with raw := [⟨some 776000, "boxscore"⟩] })
    ∧ c4Fail 1 = true :=
  ⟨rfl, rfl⟩

/-- C4 (amended): a combined-payload load is one atomic unit of work —
it either succeeds having applied every statement or leaves the database
exactly as it was.  Boxscore-only and game-only loads issue each
statement outside any transaction, so a mid-load failure leaves the
earlier statements committed (see the counterexample). -/
theorem C4_amended (data : CombinedJson) (today : String) (fail : Nat → Bool) (db : DB) :
    load_combined_data data today fail db =
      (true, applySteps (combinedSteps data today) db)
    ∨ load_combined_data data today fail db = (false, db) := by
  cases h : (runTx (combinedSteps data today) fail 0 db).1 with
  | ok db' =>
    left
    unfold load_combined_data
    rw [h, runTx_ok_state _ fail 0 db db' h]
  | failSql =>
    right
    unfold load_combined_data
    rw [h]
  | failPy =>
    right
    unfold load_combined_data
    rw [h]

/-! ## C5: write failures are caught and returned, not re-raised -/

/-- C5 (counterexample): with every statement failing, the first write of
each load path raises a database error, and every path — the combined,
boxscore-only and game-only loads, and the dispatching
`load_json_to_database` — catches it and returns the ordinary value False
rather than re-raising the failure to its caller. -/
theorem C5_counterexample :
    (runTx (combinedSteps c5Data "2025-06-01") failAll 0 DB.empty).1 = TxOut.failSql
    ∧ load_combined_data c5Data "2025-06-01" failAll DB.empty = (false, DB.empty)
    ∧ (runAuto (boxscoreOnlySteps c4Dyn c4BX) failAll 0 DB.empty).1 = false
    ∧ load_boxscore_data c4Dyn c4BX failAll DB.empty = (false, DB.empty)
    ∧ (runAuto (gameOnlySteps c4Dyn c9GD "2025-06-01") failAll 0 DB.empty).1 = false
    ∧ load_game_data c4Dyn c9GD "2025-06-01" failAll DB.empty = (false, DB.empty)
    ∧ load_json_to_database "data/json/combined_data_900.json" c5Views true true
        "2025-06-01" failAll DB.empty = (false, DB.empty) :=
  ⟨rfl, rfl, rfl, rfl, rfl, rfl, rfl⟩

/-- C5 (amended): on every load path, a database write failure is caught
and the load returns False to its caller instead of re-raising — the
combined path after its transaction rolls back, the boxscore-only and
game-only paths with their already-committed statements left in place —
and `load_json_to_database` dispatches to these paths and forwards the
False result rather than raising. -/
theorem C5_amended :
    (∀ (data : CombinedJson) (today : String) (fail : Nat → Bool) (db : DB),
      (runTx (combinedSteps data today) fail 0 db).1 = TxOut.failSql →
      load_combined_data data today fail db = (false, db))
    ∧ (∀ (dyn : Json) (bx : BoxscoreJson) (fail : Nat → Bool) (db : DB),
      (runAuto (boxscoreOnlySteps dyn bx) fail 0 db).1 = false →
      load_boxscore_data dyn bx fail db =
        (false, (runAuto (boxscoreOnlySteps dyn bx) fail 0 db).2.1))
    ∧ (∀ (dyn : Json) (gd : GameDataJson) (today : String) (fail : Nat → Bool) (db : DB),
      (runAuto (gameOnlySteps dyn gd today) fail 0 db).1 = false →
      load_game_data dyn gd today fail db =
        (false, (runAuto (gameOnlySteps dyn gd today) fail 0 db).2.1))
    ∧ (∀ (path : String) (p : PayloadViews) (today : String) (fail : Nat → Bool) (db : DB),
      (classifyPath path = FileKind.combined →
        (runTx (combinedSteps p.combined today) fail 0 db).1 = TxOut.failSql →
        load_json_to_database path p true true today fail db = (false, db))
      ∧ (classifyPath path = FileKind.boxscoreRaw →
        (runAuto (boxscoreOnlySteps p.dyn p.boxscore) fail 0 db).1 = false →
        load_json_to_database path p true true today fail db =
          (false, (runAuto (boxscoreOnlySteps p.dyn p.boxscore) fail 0 db).2.1))
      ∧ (classifyPath path = FileKind.gameRaw →
        (runAuto (gameOnlySteps p.dyn p.gamedata today) fail 0 db).1 = false →
        load_json_to_database path p true true today fail db =
          (false, (runAuto (gameOnlySteps p.dyn p.gamedata today) fail 0 db).2.1))) := by
  refine ⟨?_, ?_, ?_, ?_⟩
  · intro data today fail db h
    unfold load_combined_data
    rw [h]
  · intro dyn bx fail db h
    show ((runAuto (boxscoreOnlySteps dyn bx) fail 0 db).1,
        (runAuto (boxscoreOnlySteps dyn bx) fail 0 db).2.1) =
      (false, (runAuto (boxscoreOnlySteps dyn bx) fail 0 db).2.1)
    rw [h]
  · intro dyn gd today fail db h
    show ((runAuto (gameOnlySteps dyn gd today) fail 0 db).1,
        (runAuto (gameOnlySteps dyn gd today) fail 0 db).2.1) =
      (false, (runAuto (gameOnlySteps dyn gd today) fail 0 db).2.1)
    rw [h]
  · intro path p today fail db
    refine ⟨?_, ?_, ?_⟩
    · intro hc h
      show (match classifyPath path with
            | FileKind.combined => load_combined_data p.combined today fail db
            | FileKind.boxscoreRaw => load_boxscore_data p.dyn p.boxscore fail db
            | FileKind.gameRaw => load_game_data p.dyn p.gamedata today fail db
            | FileKind.unknown => (false, db)) = (false, db)
      rw [hc]
      unfold load_combined_data
      rw [h]
    · intro hc h
      show (match classifyPath path with
            | FileKind.combined => load_combined_data p.combined today fail db
            | FileKind.boxscoreRaw => load_boxscore_data p.dyn p.boxscore fail db
            | FileKind.gameRaw => load_game_data p.dyn p.gamedata today fail db
            | FileKind.unknown => (false, db)) =
        (false, (runAuto (boxscoreOnlySteps p.dyn p.boxscore) fail 0 db).2.1)
      rw [hc]
      show ((runAuto (boxscoreOnlySteps p.dyn p.boxscore) fail 0 db).1,
          (runAuto (boxscoreOnlySteps p.dyn p.boxscore) fail 0 db).2.1) =
        (false, (runAuto (boxscoreOnlySteps p.dyn p.boxscore) fail 0 db).2.1)
      rw [h]
    · intro hc h
      show (match classifyPath path with
            | FileKind.combined => load_combined_data p.combined today fail db
            | FileKind.boxscoreRaw => load_boxscore_data p.dyn p.boxscore fail db
            | FileKind.gameRaw => load_game_data p.dyn p.gamedata today fail db
            | FileKind.unknown => (false, db)) =
        (false, (runAuto (gameOnlySteps p.dyn p.gamedata today) fail 0 db).2.1)
      rw [hc]
      show ((runAuto (gameOnlySteps p.dyn p.gamedata today) fail 0 db).1,
          (runAuto (gameOnlySteps p.dyn p.gamedata today) fail 0 db).2.1) =
        (false, (runAuto (gameOnlySteps p.dyn p.gamedata today) fail 0 db).2.1)
      rw [h]

/-- Witness for C5 (amended): each conjunct applied at a concrete failing
load — all four entry points return the value False. -/
theorem C5_amended_witness :
    load_combined_data c5Data "2025-06-02" failAll DB.empty = (false, DB.empty)
    ∧ load_boxscore_data c4Dyn c4BX failAll DB.empty = (false, DB.empty)
    ∧ load_game_data c4Dyn c9GD "2025-06-02" failAll DB.empty = (false, DB.empty)
    ∧ load_json_to_database "data/combined_data_900.json" c5Views true true
        "2025-06-02" failAll DB.empty = (false, DB.empty)
    ∧ load_json_to_database "data/boxscore_raw_776000.json" c5Views true true
        "2025-06-02" failAll DB.empty = (false, DB.empty)
    ∧ load_json_to_database "data/game_raw_776000.json" c5Views true true
        "2025-06-02" failAll DB.empty = (false, DB.empty) :=
  ⟨C5_amended.1 c5Data "2025-06-02" failAll DB.empty (by rfl),
    C5_amended.2.1 c4Dyn c4BX failAll DB.empty (by rfl),
    C5_amended.2.2.1 c4Dyn c9GD "2025-06-02" failAll DB.empty (by rfl),
    (C5_amended.2.2.2 "data/combined_data_900.json" c5Views "2025-06-02" failAll
      DB.empty).1 (by rfl) (by rfl),
    (C5_amended.2.2.2 "data/boxscore_raw_776000.json" c5Views "2025-06-02" failAll
      DB.empty).2.1 (by rfl) (by rfl),
    (C5_amended.2.2.2 "data/game_raw_776000.json" c5Views "2025-06-02" failAll
      DB.empty).2.2 (by rfl) (by rfl)⟩

/-! ## C6: game-id recovery has no filename tier -/

/-- C6: `_extract_game_id_from_data` finds a top-level `game_id` or
`gamePk`, or a `gamePk` one level down; on a payload carrying none of
these it yields None — the function takes no filename and its callers
pass none, so no digits-before-the-extension fallback exists in the
code. -/
theorem C6_code_behavior :
    extract_game_id_from_data c6Payload = none
    ∧ extract_game_id_from_data (Json.obj [("gamePk", Json.num 776762)]) =
        some (Json.num 776762)
    ∧ extract_game_id_from_data
        (Json.obj [("liveData", Json.obj [("gamePk", Json.num 776762)])]) =
        some (Json.num 776762)
    ∧ extract_game_id_from_data (Json.obj [("game_id", Json.num 700001)]) =
        some (Json.num 700001) :=
  ⟨rfl, rfl, rfl, rfl⟩

/-! ## C7: the walks column is read from the wrong key -/

/-- C7: a batting payload carrying the upstream field names baseOnBalls,
hitByPitch, sacFlies and sacBunts produces a stored row with walks 0 —
the writer reads the key `walks`, which the upstream payload does not
carry — while atBats and strikeOuts map correctly; no hit_by_pitch,
sacrifice_flies or sacrifice_bunts column is written at all (the row type
built by the statement has no such columns). -/
theorem C7_code_behavior :
    (boxRowOf (some 1) (some 2) (some 3) c7Batting).walks = 0
    ∧ c7Batting.baseOnBalls = some 3
    ∧ (boxRowOf (some 1) (some 2) (some 3) c7Batting).at_bats = 4
    ∧ (boxRowOf (some 1) (some 2) (some 3) c7Batting).strikeouts = 2 :=
  ⟨rfl, rfl, rfl, rfl⟩

/-! ## C8: metadata precedence uses Python truthiness -/

/-- C8 (counterexample): a combined payload carrying the empty string as
its top-level game_type stores the embedded "S", not the top-level value:
Python's `or` treats the empty string as absent. -/
theorem C8_counterexample :
    c8DataE.game_type = some ""
    ∧ (load_combined_data c8DataE "2025-04-02" noFail DB.empty).2.games.map
        (·.game_type) = [some "S"] :=
  ⟨rfl, rfl⟩

theorem upsertGames_mem_meta (p : GameRow) (rows : List GameRow) (r : GameRow)
    (hr : r ∈ upsertGames p rows) (hid : sqlEqI r.game_id p.game_id = true) :
    r.game_type = p.game_type ∧ r.series_description = p.series_description ∧
      r.official_date = p.official_date := by
  unfold upsertGames at hr
  by_cases hAny : rows.any (fun q => sqlEqI q.game_id p.game_id) = true
  · rw [if_pos hAny] at hr
    obtain ⟨r0, hr0, heq⟩ := List.mem_map.mp hr
    by_cases h0 : sqlEqI r0.game_id p.game_id = true
    · rw [if_pos h0] at heq
      rw [← heq]
      exact ⟨rfl, rfl, rfl⟩
    · rw [if_neg h0] at heq
      exact absurd (heq ▸ hid) h0
  · rw [if_neg hAny] at hr
    rcases List.mem_append.mp hr with h | h
    · exact absurd (List.any_eq_true.mpr ⟨r, h, hid⟩) hAny
    · have : r = p := by simpa using h
      subst this
      exact ⟨rfl, rfl, rfl⟩

theorem orStr_of_truthy {v : String} (b : Option String) (hv : v ≠ "") :
    orStr (some v) b = some v := by
  unfold orStr truthyStr
  rw [if_pos (by simpa using hv)]

@[simp] theorem combinedGameRow_game_id (data : CombinedJson) (gd : GameDataJson)
    (d : String) : (combinedGameRow data gd d).game_id = data.game_id := rfl

@[simp] theorem combinedGameRow_game_type (data : CombinedJson) (gd : GameDataJson)
    (d : String) :
    (combinedGameRow data gd d).game_type = orStr data.game_type gd.gameType := rfl

@[simp] theorem combinedGameRow_series (data : CombinedJson) (gd : GameDataJson)
    (d : String) :
    (combinedGameRow data gd d).series_description =
      orStr data.series_description gd.seriesDescription := rfl

@[simp] theorem combinedGameRow_official (data : CombinedJson) (gd : GameDataJson)
    (d : String) :
    (combinedGameRow data gd d).official_date =
      orStr data.official_date gd.officialDate := rfl

/-- C8 (amended): after a successful combined load, every games row
matching the payload's game_id holds the top-level metadata value for
each of game_type, series_description and official_date whenever that
top-level value is a non-empty string — caller-supplied metadata wins
over the same-named field embedded in the game_data body. -/
theorem C8_amended (data : CombinedJson) (gd : GameDataJson) (t : String) (db : DB)
    (hgd : data.game_data = some gd)
    (h1 : (load_combined_data data t noFail db).1 = true) :
    ∀ r ∈ (load_combined_data data t noFail db).2.games,
      sqlEqI r.game_id data.game_id = true →
        (∀ v, data.game_type = some v → v ≠ "" → r.game_type = some v)
        ∧ (∀ v, data.series_description = some v → v ≠ "" → r.series_description = some v)
        ∧ (∀ v, data.official_date = some v → v ≠ "" → r.official_date = some v) := by
  have hnr : noRaise (combinedSteps data t) = true := by
    by_contra hn
    rw [load_combined_noFail, if_neg hn] at h1
    simp at h1
  have hst : (load_combined_data data t noFail db).2 =
      applySteps (combinedSteps data t) db := by
    rw [load_combined_noFail, if_pos hnr]
  have hok : (parseGameDate data.game_date gd.gameDate t).isOk = true := by
    rw [noRaise_combinedSteps, hgd] at hnr
    exact hnr
  obtain ⟨d, hd⟩ : ∃ d, parseGameDate data.game_date gd.gameDate t = .ok d := by
    cases hp : parseGameDate data.game_date gd.gameDate t with
    | ok d => exact ⟨d, rfl⟩
    | error _ => rw [hp] at hok; simp [Except.isOk] at hok
  rw [hst, games_applySteps_combined data t db gd d hgd hd]
  intro r hr hid
  have hmeta := upsertGames_mem_meta (combinedGameRow data gd d) db.games r hr
    (by rw [combinedGameRow_game_id]; exact hid)
  refine ⟨?_, ?_, ?_⟩
  · intro v hv hne
    rw [hmeta.1, combinedGameRow_game_type, hv, orStr_of_truthy _ hne]
  · intro v hv hne
    rw [hmeta.2.1, combinedGameRow_series, hv, orStr_of_truthy _ hne]
  · intro v hv hne
    rw [hmeta.2.2, combinedGameRow_official, hv, orStr_of_truthy _ hne]

/-- Witness for C8 (amended): the stored row for game 800 holds the
top-level "R" over the embedded "S". -/
theorem C8_amended_witness :
    ∃ r ∈ (load_combined_data c8Data "2025-04-02" noFail DB.empty).2.games,
      r.game_type = some "R" := by
  have h := C8_amended c8Data c8GD "2025-04-02" DB.empty rfl (by rfl)
  have hmem : combinedGameRow c8Data c8GD "2025-04-01" ∈
      (load_combined_data c8Data "2025-04-02" noFail DB.empty).2.games := by decide
  exact ⟨combinedGameRow c8Data c8GD "2025-04-01", hmem,
    (h _ hmem (by decide)).1 "R" rfl (by decide)⟩

/-! ## C9: status derivation uses truthiness, not a null check -/

/-- C9 (counterexample): a payload whose currentInning is 0 — non-null —
is stored with status "Final", because the code tests Python truthiness
of the value rather than its nullness. -/
theorem C9_counterexample :
    c9GD.currentInning = some 0
    ∧ (gameRowParams (some 1) c9GD none none "2025-05-01" MetaJson.empty).game_status =
        "Final" :=
  ⟨rfl, rfl⟩

/-- C9 (amended): the stored status is derived from the payload's
current-inning value alone, by truthiness: a non-null, non-zero current
inning yields "Live"; a null or zero current inning yields "Final". -/
theorem C9_amended (gid : Option Int) (gd : GameDataJson)
    (home away : Option TeamJson) (d : String) (gm : MetaJson) :
    ((∃ n, gd.currentInning = some n ∧ n ≠ 0) →
      (gameRowParams gid gd home away d gm).game_status = "Live")
    ∧ ((gd.currentInning = none ∨ gd.currentInning = some 0) →
      (gameRowParams gid gd home away d gm).game_status = "Final") := by
  constructor
  · rintro ⟨n, hn, hne⟩
    show (if truthyInt gd.currentInning then "Live" else "Final") = "Live"
    rw [hn]
    unfold truthyInt
    rw [if_pos (by simpa using hne)]
  · intro h
    show (if truthyInt gd.currentInning then "Live" else "Final") = "Final"
    rcases h with h | h <;> rw [h] <;> rfl

/-- Witness for C9 (amended) at inning 5 (live) and inning 0 (final). -/
theorem C9_amended_witness :
    (gameRowParams (some 1) c9Live none none "2025-05-01" MetaJson.empty).game_status =
      "Live"
    ∧ (gameRowParams (some 1) c9GD none none "2025-05-01" MetaJson.empty).game_status =
      "Final" :=
  ⟨(C9_amended (some 1) c9Live none none "2025-05-01" MetaJson.empty).1
      ⟨5, rfl, by decide⟩,
    (C9_amended (some 1) c9GD none none "2025-05-01" MetaJson.empty).2 (Or.inr rfl)⟩

/-! ## C10: the schedule loader in effect always returns True -/

/-- C10: the `load_schedule_data` in effect — the later of the two
same-named class-body definitions, which shadows the earlier one —
returns True for every schedule input once the connection succeeds,
whatever statements fail: each per-game failure is caught and the loop
continues.  At a concrete failing input the shadowed earlier definition,
which compares its success count to the total, returns False while the
definition in effect returns True. -/
theorem C10_schedule_return :
    (∀ (sched : ScheduleJson) (fail : Nat → Bool) (db : DB),
      (load_schedule_data sched true fail db).1 = true)
    ∧ (load_schedule_data_v1 c10Sched true failAll DB.empty).1 = false
    ∧ (load_schedule_data c10Sched true failAll DB.empty).1 = true :=
  ⟨fun _ _ _ => rfl, rfl, rfl⟩

end MLB
